import Mathlib

/-!
Verification of the Markdown-to-PDF renderer of the AI-pdf-maker repository.

The renderer of record is `server/src/pdf.ts` in its "FIXED VERSION"
(`src/unnamed/part_003`); the earlier "ENHANCED VERSION"
(`src/unnamed/part_000`) is modelled where a claim concerns it (the
paragraph inline-run branch).  Pure layout state (current page number and
vertical cursor position) is threaded explicitly; drawing and HTTP side
effects are recorded as an event trace.  The external `pdfkit` text
measurement `doc.heightOfString(text, {width, lineGap})` is an abstract
parameter `M : String → Int → Int → Int` (text, wrap width, line gap).
All lengths are integers in hundredths of a PDF point, so every numeric
constant of the source appears multiplied by 100 (the source `50` is
`5000` here); pdfkit's A4 dimensions 595.28 × 841.89 are the exact values
59528 and 84189.
-/

set_option autoImplicit false

namespace Pdf

/-- Theme record, from the `PDFTheme` interface of pdf.ts (part_003 lines
13-24). -/
structure PDFTheme where
  primaryColor : String
  secondaryColor : String
  textColor : String
  backgroundColor : String
  accentColor : String
  headerFont : String
  bodyFont : String
  codeFont : String
  gradientStart : Option String := none
  gradientEnd : Option String := none
  deriving DecidableEq

/-- The `professional` theme (part_003 lines 27-36). -/
def professionalTheme : PDFTheme :=
  { primaryColor := "#2563eb", secondaryColor := "#64748b", textColor := "#1e293b",
    backgroundColor := "#ffffff", accentColor := "#0ea5e9",
    headerFont := "Helvetica-Bold", bodyFont := "Helvetica", codeFont := "Courier" }

/-- The `modern` theme (part_003 lines 37-48). -/
def modernTheme : PDFTheme :=
  { primaryColor := "#7c3aed", secondaryColor := "#a855f7", textColor := "#374151",
    backgroundColor := "#f9fafb", accentColor := "#06b6d4",
    headerFont := "Helvetica-Bold", bodyFont := "Helvetica", codeFont := "Courier",
    gradientStart := some "#ede9fe", gradientEnd := some "#ddd6fe" }

/-- The `elegant` theme (part_003 lines 49-58). -/
def elegantTheme : PDFTheme :=
  { primaryColor := "#059669", secondaryColor := "#10b981", textColor := "#1f2937",
    backgroundColor := "#ffffff", accentColor := "#f59e0b",
    headerFont := "Helvetica-Bold", bodyFont := "Helvetica", codeFont := "Courier" }

/-- The `dark` theme (part_003 lines 59-68). -/
def darkTheme : PDFTheme :=
  { primaryColor := "#fbbf24", secondaryColor := "#f59e0b", textColor := "#f9fafb",
    backgroundColor := "#111827", accentColor := "#ef4444",
    headerFont := "Helvetica-Bold", bodyFont := "Helvetica", codeFont := "Courier" }

/-- The `coding` theme (part_003 lines 69-80). -/
def codingTheme : PDFTheme :=
  { primaryColor := "#10b981", secondaryColor := "#6366f1", textColor := "#1f2937",
    backgroundColor := "#ffffff", accentColor := "#f59e0b",
    headerFont := "Helvetica-Bold", bodyFont := "Helvetica", codeFont := "Courier",
    gradientStart := some "#ecfdf5", gradientEnd := some "#d1fae5" }

/-- The theme registry `themes : Record<string, PDFTheme>` (part_003
lines 26-81). -/
def themes : List (String × PDFTheme) :=
  [("professional", professionalTheme), ("modern", modernTheme),
   ("elegant", elegantTheme), ("dark", darkTheme), ("coding", codingTheme)]

/-- The JavaScript record lookup `themes[theme]`: `none` models the
`undefined` value obtained for a name that is not a key of the record. -/
def themesLookup (name : String) : Option PDFTheme :=
  (themes.find? (fun p => p.1 == name)).map Prod.snd

/-- Membership in the character class `[a-zA-Z0-9_.-]` used by
`sanitizeFilename` (part_003 line 9). -/
def isFilenameChar (c : Char) : Bool :=
  let n := c.toNat
  (decide (97 ≤ n) && decide (n ≤ 122)) || (decide (65 ≤ n) && decide (n ≤ 90)) ||
    (decide (48 ≤ n) && decide (n ≤ 57)) || c == '_' || c == '.' || c == '-'

/-- Function `sanitizeFilename` (part_003 lines 8-10): delete `/` and `\`, replace
every character outside `[a-zA-Z0-9_.-]` by `_`, keep the first 100
characters. -/
def sanitizeFilename (s : String) : String :=
  String.mk (((s.toList.filter (fun c => !(c == '/' || c == '\\'))).map
    (fun c => if isFilenameChar c then c else '_')).take 100)

/-- The file name inside the Content-Disposition header:
`${safeFilename || 'document'}.pdf` (part_003 line 113); the empty string
is falsy in JavaScript. -/
def contentDispositionFilename (title : String) : String :=
  let safe := sanitizeFilename title
  (if safe = "" then "document" else safe) ++ ".pdf"

/-- The full Content-Disposition header value (part_003 line 113). -/
def contentDispositionHeader (title : String) : String :=
  "attachment; filename=" ++ "\"" ++ contentDispositionFilename title ++ "\""

/-- Page margins, from the `margins` option. -/
structure Margins where
  top : Int
  bottom : Int
  left : Int
  right : Int
  deriving DecidableEq

/-- Render options of `streamTextAsPDF` (part_003 lines 88-106), with the
destructuring defaults.  `theme` holds the name from the options; the
default `"professional"` stands for an absent `theme` property. -/
structure Opts where
  theme : String := "professional"
  fontSize : Int := 1200
  margins : Margins := ⟨7200, 7200, 7200, 7200⟩
  includeHeader : Bool := true
  includeFooter : Bool := true
  includePageNumbers : Bool := true
  includeTableOfContents : Bool := false
  deriving DecidableEq

/-- Options left entirely at their defaults. -/
def defaultOpts : Opts := {}

/-- pdfkit A4 page height, 841.89 points (84189 centipoints). -/
def pageHeight : Int := 84189

/-- pdfkit A4 page width, 595.28 points (59528 centipoints). -/
def pageWidth : Int := 59528

/-- Derived `contentWidth = pageWidth - margins.left - margins.right`
(part_003 line 135). -/
def contentWidth (o : Opts) : Int := pageWidth - o.margins.left - o.margins.right

/-- Derived `footerSpace = includeFooter ? 60 : margins.bottom`
(part_003 line 136). -/
def footerSpace (o : Opts) : Int := if o.includeFooter then 6000 else o.margins.bottom

/-- An inline run inside a paragraph token, as produced by the external
`marked` lexer: `strong`, `em` or a plain text part; `noText` models a
part without a `text` field (skipped by part_000 line 278). -/
inductive Inline where
  | strong (text : String)
  | em (text : String)
  | plain (text : String)
  | noText
  deriving DecidableEq

/-- A sub-token of a list item: may carry `text` and/or `raw` fields
(part_003 lines 394-398). -/
structure ItemTok where
  text : Option String := none
  raw : Option String := none
  deriving DecidableEq

/-- A list item; `tokens` may be absent (part_003 line 393 guards
`if (item.tokens)`). -/
structure ListItem where
  tokens : Option (List ItemTok) := none
  deriving DecidableEq

/-- A token of the `marked` lexer, as consumed by the renderer's switch.
`other` models an unrecognized token kind with optional `text` and `raw`
string payloads (part_003 lines 509-533). -/
inductive Token where
  | heading (depth : Nat) (text : String)
  | paragraph (tokens : Option (List Inline)) (raw : String)
  | list (items : List ListItem)
  | blockquote (text : String)
  | code (text : String)
  | hr
  | space
  | other (text : Option String) (raw : Option String)
  deriving DecidableEq

/-- Text of one list-item sub-token: `'text' in t ? t.text : ('raw' in t ?
t.raw : '')` (part_003 lines 394-398). -/
def itemTokText (t : ItemTok) : String :=
  match t.text with
  | some s => s
  | none => t.raw.getD ""

/-- Flattened text of a list item (part_003 lines 392-399). -/
def listItemText (it : ListItem) : String :=
  match it.tokens with
  | some ts => String.join (ts.map itemTokText)
  | none => ""

/-- A recorded side effect of one render.  HTTP and pdfkit calls are
events: `respHeader`/`pipe` for the Express response setup, `measure` for
`doc.heightOfString` (text and wrap width), `text`/`rect`/`circle` for
drawing calls (tagged with the page number current when issued; `width` is
the wrap-width option, `justify` the `align: 'justify'` flag), `footer` and
`header` for the page-decorator routines (whose fixed chrome drawing is
abstracted into one event each), `newPage` for `doc.addPage()`, `pageNum`
for the buffered-pages page-number stamps, and `close` for `doc.end()`. -/
inductive Ev where
  | respHeader (name value : String)
  | pipe
  | measure (txt : String) (width : Int)
  | text (content font : String) (size : Int) (color : String)
      (x y : Int) (width : Option Int) (justify : Bool) (page : Nat)
  | rect (x y w h : Int) (color : String) (page : Nat)
  | circle (x y r : Int) (color : String) (page : Nat)
  | footer (page : Nat) (withNumber : Bool)
  | newPage
  | header (page : Nat)
  | pageNum (n : Nat)
  | close
  deriving DecidableEq

/-- The page a body-content drawing call (`text`/`rect`/`circle`) was
issued on; `none` for non-drawing and chrome events. -/
def Ev.drawPage : Ev → Option Nat
  | .text _ _ _ _ _ _ _ _ p => some p
  | .rect _ _ _ _ _ p => some p
  | .circle _ _ _ _ p => some p
  | _ => none

/-- Mutable layout state of one render: `pageNumber` and `yPosition`
(part_003 lines 131-132). -/
structure St where
  page : Nat
  y : Int
  deriving DecidableEq

/-- Function `addHeader` (part_003 lines 139-175): no-op when headers are disabled;
its fixed per-page chrome (band, centered title, accent rule) is abstracted
into a single `header` event tagged with the current page. -/
def addHeader (o : Opts) (s : St) : List Ev :=
  if o.includeHeader then [Ev.header s.page] else []

/-- Function `addFooter` (part_003 lines 177-200): no-op when footers are disabled;
abstracted into a single `footer` event recording the current page number
and whether the `Page n` text is written. -/
def addFooter (o : Opts) (s : St) : List Ev :=
  if o.includeFooter then [Ev.footer s.page o.includePageNumbers] else []

/-- Function `checkPageBreak(requiredSpace)` (part_003 lines 202-221): when
`pageHeight - footerSpace - yPosition < requiredSpace`, render the footer,
add a page, increment the page number, render the header, and reset
`yPosition` to `margins.top + (includeHeader ? 90 : 30)`. -/
def checkPageBreak (o : Opts) (required : Int) (s : St) : St × List Ev :=
  if pageHeight - footerSpace o - s.y < required then
    let s2 : St := { page := s.page + 1,
                     y := o.margins.top + (if o.includeHeader then 9000 else 3000) }
    (s2, addFooter o s ++ [Ev.newPage] ++ addHeader o s2)
  else (s, [])

/-- Function `moveDown(space)` (part_003 lines 223-227): advance the cursor and run
`checkPageBreak()` with its default `requiredSpace = 50`.  The source
default `space = lineHeight` is never used: every `moveDown` call in
part_003 passes an explicit amount, so `space` is a required argument
here. -/
def moveDown (o : Opts) (space : Int) (s : St) : St × List Ev :=
  checkPageBreak o 5000 { s with y := s.y + space }

/-- Sequential iteration of a state-and-events step over a list, as a
`for`/`forEach` loop does. -/
def stepFold {α : Type} (f : α → St → St × List Ev) (s : St) : List α → St × List Ev
  | [] => (s, [])
  | x :: xs => ((stepFold f (f x s).1 xs).1, (f x s).2 ++ (stepFold f (f x s).1 xs).2)

/-- One body of the `token.items` loop of the list branch (part_003 lines
383-420): page check, bullet circle, flatten the item text, measure it at
`contentWidth - 35`, draw it at that width, advance by the measured height
plus 15. -/
def renderListItem (M : String → Int → Int → Int) (t : PDFTheme) (o : Opts)
    (it : ListItem) (s : St) : St × List Ev :=
  let a := checkPageBreak o 3500 s
  let itxt := listItemText it
  let ih := M itxt (contentWidth o - 3500) 200
  ({ a.1 with y := a.1.y + ih + 1500 },
   a.2 ++ [Ev.circle (o.margins.left + 800) (a.1.y + 800) 250 t.accentColor a.1.page]
       ++ [Ev.measure itxt (contentWidth o - 3500)]
       ++ [Ev.text itxt t.bodyFont o.fontSize t.textColor (o.margins.left + 2500) a.1.y
             (some (contentWidth o - 3500)) false a.1.page])

/-- The `switch (token.type)` of the body loop (part_003 lines 296-535),
one token at a time. -/
def renderToken (M : String → Int → Int → Int) (t : PDFTheme) (o : Opts)
    (tok : Token) (s : St) : St × List Ev :=
  match tok with
  | Token.heading depth txt =>
      let a := checkPageBreak o (if depth = 1 then 8000 else 6000) s
      let b := moveDown o (if depth = 1 then 4000 else 2500) a.1
      if depth = 1 then
        let c := moveDown o 5000 b.1
        (c.1, a.2 ++ b.2
          ++ [Ev.rect (o.margins.left - 1500) (b.1.y - 800) (contentWidth o + 3000) 4000
                t.primaryColor b.1.page]
          ++ [Ev.text txt t.headerFont 2200 t.primaryColor o.margins.left b.1.y
                (some (contentWidth o)) false b.1.page]
          ++ c.2
          ++ [Ev.rect o.margins.left (c.1.y - 2000) (contentWidth o) 300
                t.accentColor c.1.page])
      else
        let hsize : Int := if depth = 2 then 1800 else 1500
        let hcolor := if depth = 2 then t.primaryColor else t.accentColor
        let c := moveDown o (hsize + 1000) b.1
        (c.1, a.2 ++ b.2
          ++ [Ev.text txt t.headerFont hsize hcolor o.margins.left b.1.y
                (some (contentWidth o)) false b.1.page]
          ++ c.2
          ++ (if depth = 2 then
                [Ev.rect o.margins.left (c.1.y - 1500) 12000 200 t.accentColor c.1.page]
              else []))
  | Token.paragraph _ raw =>
      let a := checkPageBreak o 6000 s
      let th := M raw (contentWidth o) 400
      let b := checkPageBreak o (th + 2000) a.1
      ({ b.1 with y := b.1.y + th + 2500 },
       a.2 ++ [Ev.measure raw (contentWidth o)] ++ b.2
           ++ [Ev.text raw t.bodyFont o.fontSize t.textColor o.margins.left b.1.y
                 (some (contentWidth o)) true b.1.page])
  | Token.list items =>
      let a := checkPageBreak o 10000 s
      let b := moveDown o 2000 a.1
      let c := stepFold (renderListItem M t o) b.1 items
      let d := moveDown o 1500 c.1
      (d.1, a.2 ++ b.2 ++ c.2 ++ d.2)
  | Token.blockquote txt =>
      let a := checkPageBreak o 8000 s
      let b := moveDown o 2000 a.1
      let qh := M txt (contentWidth o - 4000) 400 + 2000
      ({ b.1 with y := b.1.y + qh + 1000 },
       a.2 ++ b.2 ++ [Ev.measure txt (contentWidth o - 4000)]
           ++ [Ev.rect o.margins.left (b.1.y - 1000) (contentWidth o) qh
                 t.primaryColor b.1.page]
           ++ [Ev.rect o.margins.left (b.1.y - 1000) 400 qh t.accentColor b.1.page]
           ++ [Ev.text txt t.bodyFont (o.fontSize - 100) t.secondaryColor
                 (o.margins.left + 2500) b.1.y (some (contentWidth o - 4000)) false b.1.page])
  | Token.code txt =>
      let a := checkPageBreak o 6000 s
      let b := moveDown o 2000 a.1
      let ch := max 4000 (M txt (contentWidth o - 2000) 200 + 2000)
      ({ b.1 with y := b.1.y + ch + 2000 },
       a.2 ++ b.2 ++ [Ev.measure txt (contentWidth o - 2000)]
           ++ [Ev.rect o.margins.left b.1.y (contentWidth o) ch "#f8fafc" b.1.page]
           ++ [Ev.text txt t.codeFont (o.fontSize - 100) "#1e293b"
                 (o.margins.left + 1500) (b.1.y + 1000) (some (contentWidth o - 3000))
                 false b.1.page])
  | Token.hr =>
      let a := checkPageBreak o 4000 s
      let b := moveDown o 2500 a.1
      let c := moveDown o 3000 b.1
      (c.1, a.2 ++ b.2
        ++ [Ev.rect o.margins.left b.1.y (contentWidth o) 300 t.accentColor b.1.page]
        ++ [Ev.circle (o.margins.left + 1000) (b.1.y + 150) 400 t.primaryColor b.1.page]
        ++ [Ev.circle (pageWidth - o.margins.right - 1000) (b.1.y + 150) 400
              t.primaryColor b.1.page]
        ++ c.2)
  | Token.space => moveDown o 1200 s
  | Token.other txt raw =>
      if txt.isSome || raw.isSome then
        let a := checkPageBreak o 4000 s
        let payload := txt.getD (raw.getD "")
        let th := M payload (contentWidth o) 300
        ({ a.1 with y := a.1.y + th + 2000 },
         a.2 ++ [Ev.measure payload (contentWidth o)]
             ++ [Ev.text payload t.bodyFont o.fontSize t.textColor o.margins.left a.1.y
                   (some (contentWidth o)) false a.1.page])
      else (s, [])

/-- A table-of-contents entry: `{level, text, page}` (part_003 line 239). -/
structure TocEntry where
  level : Nat
  text : String
  page : Nat
  deriving DecidableEq

/-- The TOC collection pass (part_003 lines 248-256): push one entry per
heading token, recording the page number current at collection time. -/
def collectTOC (tokens : List Token) (pg : Nat) : List TocEntry :=
  tokens.filterMap (fun tok =>
    match tok with
    | Token.heading d txt => some { level := d, text := txt, page := pg }
    | _ => none)

/-- The dot fill of a TOC line: `'.'.repeat(Math.max(50 - text.length, 5))`
(part_003 lines 275-276). -/
def tocDots (textLen : Nat) : String :=
  String.mk (List.replicate (max (50 - textLen) 5) '.')

/-- One body of the TOC entry loop (part_003 lines 271-285). -/
def tocEntryStep (t : PDFTheme) (o : Opts) (item : TocEntry) (s : St) : St × List Ev :=
  let a := checkPageBreak o 2500 s
  let indent : Int := ((item.level - 1 : Nat) : Int) * 2000
  let line := item.text ++ " " ++ tocDots item.text.length ++ " " ++ toString item.page
  let b := moveDown o 1800 a.1
  (b.1, a.2 ++ [Ev.text line t.bodyFont 1100 t.textColor (o.margins.left + indent) a.1.y
                  none false a.1.page] ++ b.2)

/-- The table-of-contents phase (part_003 lines 246-293): collect entries,
and when some exist render the title and the entries, then force a page
break (addPage, increment, header, reset to `top + (includeHeader ? 90 :
30)`) without rendering a footer. -/
def tocPhase (t : PDFTheme) (o : Opts) (tokens : List Token) (s : St) : St × List Ev :=
  if o.includeTableOfContents then
    if collectTOC tokens s.page = [] then (s, [])
    else
      let a := checkPageBreak o 10000 s
      let b := moveDown o 4000 a.1
      let c := stepFold (tocEntryStep t o) b.1 (collectTOC tokens s.page)
      let s4 : St := { page := c.1.page + 1,
                       y := o.margins.top + (if o.includeHeader then 9000 else 3000) }
      (s4, a.2
        ++ [Ev.text "Table of Contents" t.headerFont 2000 t.primaryColor
              o.margins.left a.1.y none false a.1.page]
        ++ b.2 ++ c.2 ++ [Ev.newPage] ++ addHeader o s4)
  else (s, [])

/-- Initial cursor position: `margins.top + (includeHeader ? 80 : 20)`
(part_003 line 132). -/
def initY (o : Opts) : Int := o.margins.top + (if o.includeHeader then 8000 else 2000)

/-- Number of `newPage` events in a trace; since the document opens with
one page and every `doc.addPage()` emits one such event, the pages
produced by a render whose trace is `evs` number `1 + countNewPage evs`. -/
def countNewPage (evs : List Ev) : Nat := evs.countP (fun e => e == Ev.newPage)

/-- The buffered-pages page-number pass (part_003 lines 541-558): stamp
`Page i` on each of the `total` produced pages, if page numbers are
enabled. -/
def pageNumEvents (o : Opts) (total : Nat) : List Ev :=
  if o.includePageNumbers then (List.range total).map (fun i => Ev.pageNum (i + 1)) else []

/-- The document driver given a resolved theme (part_003 lines 131-558):
initial header, optional TOC phase, body iteration, final footer, and the
page-number pass. -/
def renderDoc (M : String → Int → Int → Int) (t : PDFTheme) (o : Opts)
    (tokens : List Token) : St × List Ev :=
  let s0 : St := { page := 1, y := initY o }
  let e0 := addHeader o s0
  let a := tocPhase t o tokens s0
  let b := stepFold (renderToken M t o) a.1 tokens
  let body := e0 ++ a.2 ++ b.2 ++ addFooter o b.1
  (b.1, body ++ pageNumEvents o (1 + countNewPage body))

/-- A JavaScript runtime error: `typeError` is the `TypeError` thrown by a
property access on `undefined`. -/
inductive JsError where
  | typeError
  deriving DecidableEq

/-- Outcome of one `streamTextAsPDF` call: the emitted events, the error
that aborted it (if any), and the final layout state on completion. -/
structure RunOut where
  events : List Ev
  err : Option JsError
  st : Option St
  deriving DecidableEq

/-- Events emitted before the first use of the looked-up theme: the two
response headers (part_003 lines 112-113) and `doc.pipe(res)` (line 128). -/
def preEvents (title : String) : List Ev :=
  [Ev.respHeader "Content-Type" "application/pdf",
   Ev.respHeader "Content-Disposition" (contentDispositionHeader title),
   Ev.pipe]

/-! Section: the undefined-theme execution.  `themes[theme]` is `undefined`
for an unknown name; JavaScript then throws a `TypeError` at the first
property access on it, which happens at different points of the render
depending on the options and tokens.  A step of that execution is a pair:
the events emitted before control returns, and `some` resulting state, or
`none` when the step threw, aborting the render. -/

/-- Sequencing of undefined-theme steps: after a throw nothing further
executes. -/
def useq (a : List Ev × Option St) (f : St → List Ev × Option St) :
    List Ev × Option St :=
  match a.2 with
  | none => (a.1, none)
  | some s => (a.1 ++ (f s).1, (f s).2)

/-- Function `addHeader` with `currentTheme = undefined` (part_003 lines
139-147): disabled headers return before any theme access; otherwise the
`currentTheme.gradientStart` test at line 147 throws before anything is
drawn. -/
def addHeaderU (o : Opts) (s : St) : List Ev × Option St :=
  if o.includeHeader then ([], none) else ([], some s)

/-- Function `addFooter` with `currentTheme = undefined` (part_003 lines
177-184): disabled footers return; otherwise evaluating the
`fill(currentTheme.secondaryColor)` argument at line 184 throws before the
footer is drawn. -/
def addFooterU (o : Opts) (s : St) : List Ev × Option St :=
  if o.includeFooter then ([], none) else ([], some s)

/-- Function `checkPageBreak` with `currentTheme = undefined` (part_003
lines 202-221): the break path runs `addFooter` (throwing if footers are
enabled), then `doc.addPage`, the increment, `addHeader` (throwing if
headers are enabled) and the reset. -/
def checkPageBreakU (o : Opts) (required : Int) (s : St) : List Ev × Option St :=
  if pageHeight - footerSpace o - s.y < required then
    useq (addFooterU o s) (fun s1 =>
      useq ([Ev.newPage],
          some { page := s1.page + 1,
                 y := o.margins.top + (if o.includeHeader then 9000 else 3000) })
        (addHeaderU o))
  else ([], some s)

/-- Function `moveDown` with `currentTheme = undefined` (part_003 lines
223-227). -/
def moveDownU (o : Opts) (space : Int) (s : St) : List Ev × Option St :=
  checkPageBreakU o 5000 { s with y := s.y + space }

/-- Sequential iteration of undefined-theme steps over a list. -/
def stepFoldU {α : Type} (f : α → St → List Ev × Option St) (s : St) :
    List α → List Ev × Option St
  | [] => ([], some s)
  | x :: xs => useq (f x s) (fun s1 => stepFoldU f s1 xs)

/-- The switch of part_003 lines 296-535 with `currentTheme = undefined`.
Where the first theme property access sits decides how far each branch
gets: headings throw at their first fill or heading-color read (lines
306-311, 330) after the space checks; paragraphs throw at
`fill(currentTheme.textColor)` (line 355) before measuring; a non-empty
list throws at the first bullet's `fill(currentTheme.accentColor)` (line
389), while an empty list only moves down; blockquote (line 429) and code
(line 463) measure their text first — and code also fills its box with the
literal color `#f8fafc` (line 470) — before throwing at the next theme
access (lines 436, 471); `hr` throws at its bar fill (line 494); `space`
touches no theme at all; an unrecognized token measures its payload (line
515) and throws at line 520, or is skipped when it has no payload. -/
def renderTokenU (M : String → Int → Int → Int) (o : Opts) (tok : Token)
    (s : St) : List Ev × Option St :=
  match tok with
  | Token.heading depth _ =>
      useq (checkPageBreakU o (if depth = 1 then 8000 else 6000) s) (fun s1 =>
        useq (moveDownU o (if depth = 1 then 4000 else 2500) s1) (fun _ => ([], none)))
  | Token.paragraph _ _ =>
      useq (checkPageBreakU o 6000 s) (fun _ => ([], none))
  | Token.list items =>
      useq (checkPageBreakU o 10000 s) (fun s1 =>
        useq (moveDownU o 2000 s1) (fun s2 =>
          match items with
          | [] => moveDownU o 1500 s2
          | _ :: _ => useq (checkPageBreakU o 3500 s2) (fun _ => ([], none))))
  | Token.blockquote txt =>
      useq (checkPageBreakU o 8000 s) (fun s1 =>
        useq (moveDownU o 2000 s1) (fun _ =>
          ([Ev.measure txt (contentWidth o - 4000)], none)))
  | Token.code txt =>
      useq (checkPageBreakU o 6000 s) (fun s1 =>
        useq (moveDownU o 2000 s1) (fun s2 =>
          ([Ev.measure txt (contentWidth o - 2000),
            Ev.rect o.margins.left s2.y (contentWidth o)
              (max 4000 (M txt (contentWidth o - 2000) 200 + 2000)) "#f8fafc" s2.page],
           none)))
  | Token.hr =>
      useq (checkPageBreakU o 4000 s) (fun s1 =>
        useq (moveDownU o 2500 s1) (fun _ => ([], none)))
  | Token.space => moveDownU o 1200 s
  | Token.other txt raw =>
      if txt.isSome || raw.isSome then
        useq (checkPageBreakU o 4000 s) (fun _ =>
          ([Ev.measure (txt.getD (raw.getD "")) (contentWidth o)], none))
      else ([], some s)

/-- The TOC phase with `currentTheme = undefined` (part_003 lines
246-293): collection touches no theme; with entries present, after the
space check the title's `fill(currentTheme.primaryColor)` (line 262)
throws. -/
def tocPhaseU (o : Opts) (tokens : List Token) (s : St) : List Ev × Option St :=
  if o.includeTableOfContents then
    if collectTOC tokens s.page = [] then ([], some s)
    else useq (checkPageBreakU o 10000 s) (fun _ => ([], none))
  else ([], some s)

/-- The driver of part_003 lines 131-560 with `currentTheme = undefined`:
initial header, TOC phase, body iteration, final footer, and the
page-number pass, whose `fill(currentTheme.secondaryColor)` (line 550)
throws when page numbers are enabled; if nothing ever touched the theme,
the render reaches `doc.end()` and completes. -/
def renderDocU (M : String → Int → Int → Int) (o : Opts)
    (tokens : List Token) : List Ev × Option St :=
  useq (addHeaderU o { page := 1, y := initY o }) (fun s1 =>
  useq (tocPhaseU o tokens s1) (fun s2 =>
  useq (stepFoldU (renderTokenU M o) s2 tokens) (fun s3 =>
  useq (addFooterU o s3) (fun s4 =>
    if o.includePageNumbers then ([], none) else ([], some s4)))))

/-- Function `streamTextAsPDF` (part_003 lines 84-561).  The external
`marked.lexer` call is out of scope; `tokens` stands for its output.  With
a registered theme the total `renderDoc` runs and `doc.end()` closes the
stream; with an unknown name the undefined-theme execution `renderDocU`
runs after the response headers and the pipe, ending either in a
`TypeError` or — when no theme property was ever accessed — in a normal
completion. -/
def streamTextAsPDF (M : String → Int → Int → Int) (title : String)
    (tokens : List Token) (o : Opts) : RunOut :=
  match themesLookup o.theme with
  | some t =>
      { events := preEvents title ++ (renderDoc M t o tokens).2 ++ [Ev.close],
        err := none, st := some (renderDoc M t o tokens).1 }
  | none =>
      match (renderDocU M o tokens).2 with
      | none => { events := preEvents title ++ (renderDocU M o tokens).1,
                  err := some JsError.typeError, st := none }
      | some s => { events := preEvents title ++ (renderDocU M o tokens).1 ++ [Ev.close],
                    err := none, st := some s }

/-- A constant text-measure, used to instantiate the abstract
`heightOfString` at concrete inputs. -/
def constM (h : Int) : String → Int → Int → Int := fun _ _ _ => h

/-- Function `checkPageBreak` of the ENHANCED version (part_000 lines 160-167):
break when `yPosition + requiredSpace > pageHeight - margins.bottom - 50`;
no footer is rendered, the reset position is `margins.top + 80`. -/
def checkPageBreakV0 (o : Opts) (required : Int) (s : St) : St × List Ev :=
  if pageHeight - o.margins.bottom - 5000 < s.y + required then
    let s2 : St := { page := s.page + 1, y := o.margins.top + 8000 }
    (s2, [Ev.newPage] ++ addHeader o s2)
  else (s, [])

/-- Function `moveDown` of the ENHANCED version (part_000 lines 169-172); its
`checkPageBreak()` call uses the default `requiredSpace = 100`. -/
def moveDownV0 (o : Opts) (space : Int) (s : St) : St × List Ev :=
  checkPageBreakV0 o 10000 { s with y := s.y + space }

/-- The drawing call one iteration of the ENHANCED inline-run loop issues
(part_000 lines 277-294): a part without a `text` field is skipped
(`none`); `strong` is drawn in the heading font and primary color, `em` in
the secondary color, anything else in the body font and text color; all
runs share the baseline `(margins.left, yPosition)` (the loop never
updates `currentX`). -/
def runEventOf (t : PDFTheme) (o : Opts) (s : St) : Inline → Option Ev
  | Inline.noText => none
  | Inline.strong x =>
      some (Ev.text x t.headerFont o.fontSize t.primaryColor o.margins.left s.y
              none false s.page)
  | Inline.em x =>
      some (Ev.text x t.bodyFont o.fontSize t.secondaryColor o.margins.left s.y
              none false s.page)
  | Inline.plain x =>
      some (Ev.text x t.bodyFont o.fontSize t.textColor o.margins.left s.y
              none false s.page)

/-- The inline-run loop of the ENHANCED paragraph branch (part_000 lines
277-294), iteration order preserved: each part appends its drawing call
(if any) to the trace.  The terminating `doc.text('')`, which draws
nothing, is not recorded. -/
def inlineRunEvents (t : PDFTheme) (o : Opts) (s : St) (parts : List Inline) : List Ev :=
  parts.foldl (fun acc part => acc ++ (runEventOf t o s part).toList) []

/-- The paragraph branch of the ENHANCED version (part_000 lines 266-304):
with inline runs present render them run by run, otherwise draw the raw
text as one justified block at content width; then `moveDown(25)`. -/
def renderParagraphV0 (t : PDFTheme) (o : Opts) (runs : Option (List Inline))
    (raw : String) (s : St) : St × List Ev :=
  let a := checkPageBreakV0 o 5000 s
  match runs with
  | some parts =>
      let b := moveDownV0 o 2500 a.1
      (b.1, a.2 ++ inlineRunEvents t o a.1 parts ++ b.2)
  | none =>
      let b := moveDownV0 o 2500 a.1
      (b.1, a.2 ++ [Ev.text raw t.bodyFont o.fontSize t.textColor o.margins.left a.1.y
                      (some (pageWidth - o.margins.left - o.margins.right)) true a.1.page]
            ++ b.2)

/-- Every body-content drawing call in `evs` was issued on a page `≥ lo`. -/
def DrawsLB (lo : Nat) (evs : List Ev) : Prop :=
  ∀ e ∈ evs, ∀ p, e.drawPage = some p → lo ≤ p

/-- Every body-content drawing call in `evs` was issued on a page `≤ hi`. -/
def DrawsUB (hi : Nat) (evs : List Ev) : Prop :=
  ∀ e ∈ evs, ∀ p, e.drawPage = some p → p ≤ hi

/-- Default options with the table of contents enabled. -/
def optsTOC : Opts := { includeTableOfContents := true }

/-- Default options with an unknown theme name in the options. -/
def optsX : Opts := { theme := "nonexistent-theme" }

/-- An unknown theme name with header, footer and page numbers disabled:
the configuration under which an unknown-theme render can run without ever
touching the theme. -/
def optsXBare : Opts :=
  { theme := "nonexistent-theme", includeHeader := false, includeFooter := false,
    includePageNumbers := false }

/-- Every body-content drawing call in `evs` is a rectangle filled with the
literal color `#f8fafc` — the code branch's background, the one drawing
call an undefined-theme render can complete. -/
def OnlyCodeRects (evs : List Ev) : Prop :=
  ∀ e ∈ evs, ∀ p, e.drawPage = some p →
    ∃ x y w h2 pg, e = Ev.rect x y w h2 "#f8fafc" pg

/-- Default options with a 700pt top margin and the table of contents
enabled. -/
def opts700 : Opts := { margins := ⟨70000, 7200, 7200, 7200⟩, includeTableOfContents := true }

/-! Section: Page-counter bookkeeping lemmas

The central invariant: every operation increments the page number by
exactly the number of `newPage` events it emits. -/

theorem countNewPage_nil : countNewPage [] = 0 := rfl

theorem countNewPage_cons (e : Ev) (l : List Ev) :
    countNewPage (e :: l) = (if e = Ev.newPage then 1 else 0) + countNewPage l := by
  unfold countNewPage
  rw [List.countP_cons]
  by_cases h : e = Ev.newPage
  · simp [h, Nat.add_comm]
  · simp [h]

theorem countNewPage_append (a b : List Ev) :
    countNewPage (a ++ b) = countNewPage a + countNewPage b := by
  simp [countNewPage, List.countP_append]

theorem countNewPage_addHeader (o : Opts) (s : St) :
    countNewPage (addHeader o s) = 0 := by
  unfold addHeader
  split_ifs <;> simp [countNewPage_cons, countNewPage_nil]

theorem countNewPage_addFooter (o : Opts) (s : St) :
    countNewPage (addFooter o s) = 0 := by
  unfold addFooter
  split_ifs <;> simp [countNewPage_cons, countNewPage_nil]

theorem countNewPage_pageNumList (l : List Nat) :
    countNewPage (l.map (fun i => Ev.pageNum (i + 1))) = 0 := by
  induction l with
  | nil => rfl
  | cons x xs ih => simpa [countNewPage_cons] using ih

theorem countNewPage_pageNumEvents (o : Opts) (total : Nat) :
    countNewPage (pageNumEvents o total) = 0 := by
  unfold pageNumEvents
  split_ifs
  · exact countNewPage_pageNumList _
  · rfl

theorem page_checkPageBreak (o : Opts) (r : Int) (s : St) :
    (checkPageBreak o r s).1.page = s.page + countNewPage (checkPageBreak o r s).2 := by
  unfold checkPageBreak
  split_ifs <;>
    simp [countNewPage_append, countNewPage_addFooter, countNewPage_addHeader,
      countNewPage_cons, countNewPage_nil]

theorem page_moveDown (o : Opts) (sp : Int) (s : St) :
    (moveDown o sp s).1.page = s.page + countNewPage (moveDown o sp s).2 := by
  unfold moveDown
  exact page_checkPageBreak o 5000 _

theorem page_stepFold {α : Type} (f : α → St → St × List Ev)
    (hf : ∀ x s, (f x s).1.page = s.page + countNewPage (f x s).2) :
    ∀ (xs : List α) (s : St),
      (stepFold f s xs).1.page = s.page + countNewPage (stepFold f s xs).2 := by
  intro xs
  induction xs with
  | nil => intro s; simp [stepFold, countNewPage_nil]
  | cons x xs ih =>
      intro s
      have h1 := hf x s
      have h2 := ih (f x s).1
      simp only [stepFold, countNewPage_append]
      omega

theorem page_renderListItem (M : String → Int → Int → Int) (t : PDFTheme) (o : Opts)
    (it : ListItem) (s : St) :
    (renderListItem M t o it s).1.page =
      s.page + countNewPage (renderListItem M t o it s).2 := by
  have h := page_checkPageBreak o 3500 s
  simp only [renderListItem, countNewPage_append, countNewPage_cons, countNewPage_nil]
  simp
  omega

theorem page_renderToken (M : String → Int → Int → Int) (t : PDFTheme) (o : Opts)
    (tok : Token) (s : St) :
    (renderToken M t o tok s).1.page =
      s.page + countNewPage (renderToken M t o tok s).2 := by
  cases tok with
  | heading depth txt =>
      by_cases hd : depth = 1
      · have h1 := page_checkPageBreak o 8000 s
        have h2 := page_moveDown o 4000 (checkPageBreak o 8000 s).1
        have h3 := page_moveDown o 5000 (moveDown o 4000 (checkPageBreak o 8000 s).1).1
        simp only [renderToken, hd, if_true, countNewPage_append, countNewPage_cons,
          countNewPage_nil]
        simp
        omega
      · by_cases hd2 : depth = 2
        · have h1 := page_checkPageBreak o 6000 s
          have h2 := page_moveDown o 2500 (checkPageBreak o 6000 s).1
          have h3 := page_moveDown o 2800 (moveDown o 2500 (checkPageBreak o 6000 s).1).1
          simp [renderToken, hd, hd2, countNewPage_append, countNewPage_cons,
            countNewPage_nil]
          omega
        · have h1 := page_checkPageBreak o 6000 s
          have h2 := page_moveDown o 2500 (checkPageBreak o 6000 s).1
          have h3 := page_moveDown o 2500 (moveDown o 2500 (checkPageBreak o 6000 s).1).1
          simp [renderToken, hd, hd2, countNewPage_append, countNewPage_cons,
            countNewPage_nil]
          omega
  | paragraph runs raw =>
      have h1 := page_checkPageBreak o 6000 s
      have h2 := page_checkPageBreak o (M raw (contentWidth o) 400 + 2000)
        (checkPageBreak o 6000 s).1
      simp only [renderToken, countNewPage_append, countNewPage_cons, countNewPage_nil]
      simp
      omega
  | list items =>
      have h1 := page_checkPageBreak o 10000 s
      have h2 := page_moveDown o 2000 (checkPageBreak o 10000 s).1
      have h3 := page_stepFold (renderListItem M t o) (page_renderListItem M t o) items
        (moveDown o 2000 (checkPageBreak o 10000 s).1).1
      have h4 := page_moveDown o 1500
        (stepFold (renderListItem M t o) (moveDown o 2000 (checkPageBreak o 10000 s).1).1 items).1
      simp only [renderToken, countNewPage_append]
      omega
  | blockquote txt =>
      have h1 := page_checkPageBreak o 8000 s
      have h2 := page_moveDown o 2000 (checkPageBreak o 8000 s).1
      simp only [renderToken, countNewPage_append, countNewPage_cons, countNewPage_nil]
      simp
      omega
  | code txt =>
      have h1 := page_checkPageBreak o 6000 s
      have h2 := page_moveDown o 2000 (checkPageBreak o 6000 s).1
      simp only [renderToken, countNewPage_append, countNewPage_cons, countNewPage_nil]
      simp
      omega
  | hr =>
      have h1 := page_checkPageBreak o 4000 s
      have h2 := page_moveDown o 2500 (checkPageBreak o 4000 s).1
      have h3 := page_moveDown o 3000 (moveDown o 2500 (checkPageBreak o 4000 s).1).1
      simp only [renderToken, countNewPage_append, countNewPage_cons, countNewPage_nil]
      simp
      omega
  | space =>
      simp only [renderToken]
      exact page_moveDown o 1200 s
  | other txt raw =>
      by_cases hp : (txt.isSome || raw.isSome : Bool)
      · have h1 := page_checkPageBreak o 4000 s
        simp only [renderToken, hp, if_true, countNewPage_append, countNewPage_cons,
          countNewPage_nil]
        simp
        omega
      · simp only [renderToken, hp, if_false]
        simp [countNewPage_nil]

theorem page_tocEntryStep (t : PDFTheme) (o : Opts) (item : TocEntry) (s : St) :
    (tocEntryStep t o item s).1.page =
      s.page + countNewPage (tocEntryStep t o item s).2 := by
  have h1 := page_checkPageBreak o 2500 s
  have h2 := page_moveDown o 1800 (checkPageBreak o 2500 s).1
  simp only [tocEntryStep, countNewPage_append, countNewPage_cons, countNewPage_nil]
  simp
  omega

theorem page_tocPhase (t : PDFTheme) (o : Opts) (tokens : List Token) (s : St) :
    (tocPhase t o tokens s).1.page =
      s.page + countNewPage (tocPhase t o tokens s).2 := by
  have h1 := page_checkPageBreak o 10000 s
  have h2 := page_moveDown o 4000 (checkPageBreak o 10000 s).1
  have h3 := page_stepFold (tocEntryStep t o) (page_tocEntryStep t o)
    (collectTOC tokens s.page) (moveDown o 4000 (checkPageBreak o 10000 s).1).1
  unfold tocPhase
  split_ifs <;>
    simp [countNewPage_append, countNewPage_addHeader, countNewPage_cons,
      countNewPage_nil] <;>
    omega

theorem page_renderDoc (M : String → Int → Int → Int) (t : PDFTheme) (o : Opts)
    (tokens : List Token) :
    (renderDoc M t o tokens).1.page = 1 + countNewPage (renderDoc M t o tokens).2 := by
  have h1 : (tocPhase t o tokens { page := 1, y := initY o }).1.page =
      1 + countNewPage (tocPhase t o tokens { page := 1, y := initY o }).2 := by
    simpa using page_tocPhase t o tokens { page := 1, y := initY o }
  have h2 := page_stepFold (renderToken M t o) (page_renderToken M t o) tokens
    (tocPhase t o tokens { page := 1, y := initY o }).1
  simp only [renderDoc, countNewPage_append, countNewPage_addHeader,
    countNewPage_addFooter, countNewPage_pageNumEvents]
  omega

/-! Section: Claim C3: page counter -/

/-- Claim C3: throughout one render the page number starts at 1, is
monotonically non-decreasing, increases by exactly one per emitted
`newPage` event (a page break) and at no other point, and its final value
equals the total number of pages produced (the initial page plus one page
per `doc.addPage()` call, i.e. `1 + countNewPage`). -/
theorem C3_page_counter (M : String → Int → Int → Int) (t : PDFTheme) (o : Opts)
    (tokens : List Token) :
    ({ page := 1, y := initY o } : St).page = 1 ∧
    (∀ tok s, (renderToken M t o tok s).1.page =
        s.page + countNewPage (renderToken M t o tok s).2) ∧
    (∀ tok s, s.page ≤ (renderToken M t o tok s).1.page) ∧
    (renderDoc M t o tokens).1.page = 1 + countNewPage (renderDoc M t o tokens).2 :=
  ⟨rfl, fun tok s => page_renderToken M t o tok s,
   fun tok s => by have := page_renderToken M t o tok s; omega,
   page_renderDoc M t o tokens⟩

/-! Section: Claim C5: the page-break sequence -/

/-- Claim C5: whenever `checkPageBreak` triggers a page break, it renders
the footer of the page being left (if footers are enabled), allocates a
new page, increments the page number, re-renders the header on the new
page (if headers are enabled), in that order, and resets the vertical
position to the top margin plus the header reserve (the source 90 with
headers and 30 without, i.e. 9000 and 3000 centipoints). -/
theorem C5_page_break_sequence (o : Opts) (r : Int) (s : St)
    (h : pageHeight - footerSpace o - s.y < r) :
    checkPageBreak o r s =
      ({ page := s.page + 1,
         y := o.margins.top + (if o.includeHeader then 9000 else 3000) },
       (if o.includeFooter then [Ev.footer s.page o.includePageNumbers] else [])
         ++ [Ev.newPage]
         ++ (if o.includeHeader then [Ev.header (s.page + 1)] else [])) := by
  unfold checkPageBreak
  rw [if_pos h]
  rfl

/-- Witness for C5 at a concrete overfull state. -/
theorem C5_witness :
    pageHeight - footerSpace defaultOpts - (80000 : Int) < 5000 ∧
    checkPageBreak defaultOpts 5000 ⟨1, 80000⟩ =
      (⟨2, 16200⟩, [Ev.footer 1 true, Ev.newPage, Ev.header 2]) :=
  ⟨by decide,
   (C5_page_break_sequence defaultOpts 5000 ⟨1, 80000⟩ (by decide)).trans (by decide)⟩

/-! Section: Draw-page bound machinery -/

theorem drawPage_addFooter (o : Opts) (s : St) :
    ∀ e ∈ addFooter o s, e.drawPage = none := by
  unfold addFooter
  split_ifs <;> intro e he <;> simp at he
  subst he
  rfl

theorem drawPage_addHeader (o : Opts) (s : St) :
    ∀ e ∈ addHeader o s, e.drawPage = none := by
  unfold addHeader
  split_ifs <;> intro e he <;> simp at he
  subst he
  rfl

theorem drawPage_checkPageBreak (o : Opts) (r : Int) (s : St) :
    ∀ e ∈ (checkPageBreak o r s).2, e.drawPage = none := by
  unfold checkPageBreak
  by_cases h : pageHeight - footerSpace o - s.y < r
  · rw [if_pos h]
    intro e he
    rcases List.mem_append.mp he with he | he
    · rcases List.mem_append.mp he with he | he
      · exact drawPage_addFooter o s e he
      · simp at he; subst he; rfl
    · exact drawPage_addHeader o _ e he
  · rw [if_neg h]
    intro e he
    simp at he

theorem drawPage_moveDown (o : Opts) (sp : Int) (s : St) :
    ∀ e ∈ (moveDown o sp s).2, e.drawPage = none := by
  unfold moveDown
  exact drawPage_checkPageBreak o 5000 _

theorem page_le_checkPageBreak (o : Opts) (r : Int) (s : St) :
    s.page ≤ (checkPageBreak o r s).1.page := by
  have := page_checkPageBreak o r s; omega

theorem page_le_moveDown (o : Opts) (sp : Int) (s : St) :
    s.page ≤ (moveDown o sp s).1.page := by
  have := page_moveDown o sp s; omega

theorem page_le_stepFold {α : Type} (f : α → St → St × List Ev)
    (hf : ∀ x s, (f x s).1.page = s.page + countNewPage (f x s).2)
    (xs : List α) (s : St) : s.page ≤ (stepFold f s xs).1.page := by
  have := page_stepFold f hf xs s; omega

theorem drawsLB_append {lo : Nat} {a b : List Ev}
    (ha : DrawsLB lo a) (hb : DrawsLB lo b) : DrawsLB lo (a ++ b) := by
  intro e he p hp
  rcases List.mem_append.mp he with h | h
  · exact ha e h p hp
  · exact hb e h p hp

theorem drawsLB_of_none {lo : Nat} {evs : List Ev}
    (h : ∀ e ∈ evs, e.drawPage = none) : DrawsLB lo evs := by
  intro e he p hp
  rw [h e he] at hp
  cases hp

theorem drawsLB_singleton {lo : Nat} (e : Ev)
    (h : ∀ p, e.drawPage = some p → lo ≤ p) : DrawsLB lo [e] := by
  intro e2 he p hp
  simp at he
  subst he
  exact h p hp

theorem drawsUB_append {hi : Nat} {a b : List Ev}
    (ha : DrawsUB hi a) (hb : DrawsUB hi b) : DrawsUB hi (a ++ b) := by
  intro e he p hp
  rcases List.mem_append.mp he with h | h
  · exact ha e h p hp
  · exact hb e h p hp

theorem drawsUB_of_none {hi : Nat} {evs : List Ev}
    (h : ∀ e ∈ evs, e.drawPage = none) : DrawsUB hi evs := by
  intro e he p hp
  rw [h e he] at hp
  cases hp

theorem drawsUB_singleton {hi : Nat} (e : Ev)
    (h : ∀ p, e.drawPage = some p → p ≤ hi) : DrawsUB hi [e] := by
  intro e2 he p hp
  simp at he
  subst he
  exact h p hp

theorem drawsUB_mono {hi hi2 : Nat} {evs : List Ev} (h : hi ≤ hi2)
    (hu : DrawsUB hi evs) : DrawsUB hi2 evs :=
  fun e he p hp => le_trans (hu e he p hp) h

theorem drawsLB_measure {lo : Nat} (txt : String) (w : Int) :
    DrawsLB lo [Ev.measure txt w] :=
  drawsLB_of_none (by intro e he; simp at he; subst he; rfl)

theorem drawsLB_text {lo : Nat} (c f : String) (sz : Int) (col : String) (x y : Int)
    (w : Option Int) (j : Bool) (pg : Nat) (h : lo ≤ pg) :
    DrawsLB lo [Ev.text c f sz col x y w j pg] :=
  drawsLB_singleton _ (fun p hp => by simp [Ev.drawPage] at hp; omega)

theorem drawsLB_rect {lo : Nat} (x y w h2 : Int) (col : String) (pg : Nat)
    (h : lo ≤ pg) : DrawsLB lo [Ev.rect x y w h2 col pg] :=
  drawsLB_singleton _ (fun p hp => by simp [Ev.drawPage] at hp; omega)

theorem drawsLB_circle {lo : Nat} (x y r : Int) (col : String) (pg : Nat)
    (h : lo ≤ pg) : DrawsLB lo [Ev.circle x y r col pg] :=
  drawsLB_singleton _ (fun p hp => by simp [Ev.drawPage] at hp; omega)

theorem drawsUB_measure {hi : Nat} (txt : String) (w : Int) :
    DrawsUB hi [Ev.measure txt w] :=
  drawsUB_of_none (by intro e he; simp at he; subst he; rfl)

theorem drawsUB_text {hi : Nat} (c f : String) (sz : Int) (col : String) (x y : Int)
    (w : Option Int) (j : Bool) (pg : Nat) (h : pg ≤ hi) :
    DrawsUB hi [Ev.text c f sz col x y w j pg] :=
  drawsUB_singleton _ (fun p hp => by simp [Ev.drawPage] at hp; omega)

theorem page_le_renderListItem (M : String → Int → Int → Int) (t : PDFTheme)
    (o : Opts) (it : ListItem) (s : St) :
    s.page ≤ (renderListItem M t o it s).1.page := by
  have := page_renderListItem M t o it s; omega

theorem page_le_renderToken (M : String → Int → Int → Int) (t : PDFTheme)
    (o : Opts) (tok : Token) (s : St) :
    s.page ≤ (renderToken M t o tok s).1.page := by
  have := page_renderToken M t o tok s; omega

theorem page_le_tocEntryStep (t : PDFTheme) (o : Opts) (item : TocEntry) (s : St) :
    s.page ≤ (tocEntryStep t o item s).1.page := by
  have := page_tocEntryStep t o item s; omega

theorem drawsLB_stepFold {α : Type} (f : α → St → St × List Ev)
    (hlb : ∀ x s, DrawsLB s.page (f x s).2)
    (hm : ∀ x s, s.page ≤ (f x s).1.page) :
    ∀ (xs : List α) (s : St), DrawsLB s.page (stepFold f s xs).2 := by
  intro xs
  induction xs with
  | nil => intro s; exact drawsLB_of_none (by intro e he; simp [stepFold] at he)
  | cons x xs ih =>
      intro s
      simp only [stepFold]
      refine drawsLB_append (hlb x s) ?_
      intro e he p hp
      exact le_trans (hm x s) (ih (f x s).1 e he p hp)

theorem drawsUB_stepFold {α : Type} (f : α → St → St × List Ev)
    (hub : ∀ x s, DrawsUB (f x s).1.page (f x s).2)
    (hmfold : ∀ (xs : List α) (s : St), s.page ≤ (stepFold f s xs).1.page) :
    ∀ (xs : List α) (s : St), DrawsUB (stepFold f s xs).1.page (stepFold f s xs).2 := by
  intro xs
  induction xs with
  | nil => intro s; exact drawsUB_of_none (by intro e he; simp [stepFold] at he)
  | cons x xs ih =>
      intro s
      simp only [stepFold]
      refine drawsUB_append ?_ (ih (f x s).1)
      exact drawsUB_mono (hmfold xs (f x s).1) (hub x s)

theorem drawsLB_renderListItem (M : String → Int → Int → Int) (t : PDFTheme)
    (o : Opts) (it : ListItem) (s : St) :
    DrawsLB s.page (renderListItem M t o it s).2 := by
  have m1 := page_le_checkPageBreak o 3500 s
  simp only [renderListItem]
  refine drawsLB_append (drawsLB_append (drawsLB_append ?_ ?_) ?_) ?_
  · exact drawsLB_of_none (drawPage_checkPageBreak o 3500 s)
  · exact drawsLB_circle _ _ _ _ _ (by omega)
  · exact drawsLB_measure _ _
  · exact drawsLB_text _ _ _ _ _ _ _ _ _ (by omega)

theorem drawsLB_renderToken (M : String → Int → Int → Int) (t : PDFTheme)
    (o : Opts) (tok : Token) (s : St) :
    DrawsLB s.page (renderToken M t o tok s).2 := by
  cases tok with
  | heading depth txt =>
      by_cases hd : depth = 1
      · have m1 := page_le_checkPageBreak o 8000 s
        have m2 := page_le_moveDown o 4000 (checkPageBreak o 8000 s).1
        have m3 := page_le_moveDown o 5000 (moveDown o 4000 (checkPageBreak o 8000 s).1).1
        simp only [renderToken, hd, if_true]
        refine drawsLB_append (drawsLB_append (drawsLB_append (drawsLB_append
          (drawsLB_append ?_ ?_) ?_) ?_) ?_) ?_
        · exact drawsLB_of_none (drawPage_checkPageBreak o 8000 s)
        · exact drawsLB_of_none (drawPage_moveDown o 4000 _)
        · exact drawsLB_rect _ _ _ _ _ _ (by omega)
        · exact drawsLB_text _ _ _ _ _ _ _ _ _ (by omega)
        · exact drawsLB_of_none (drawPage_moveDown o 5000 _)
        · exact drawsLB_rect _ _ _ _ _ _ (by omega)
      · have m1 := page_le_checkPageBreak o 6000 s
        have m2 := page_le_moveDown o 2500 (checkPageBreak o 6000 s).1
        have m3 := page_le_moveDown o ((if depth = 2 then (1800 : Int) else 1500) + 1000)
          (moveDown o 2500 (checkPageBreak o 6000 s).1).1
        simp only [renderToken, if_neg hd]
        refine drawsLB_append (drawsLB_append (drawsLB_append (drawsLB_append ?_ ?_)
          ?_) ?_) ?_
        · exact drawsLB_of_none (drawPage_checkPageBreak o 6000 s)
        · exact drawsLB_of_none (drawPage_moveDown o 2500 _)
        · exact drawsLB_text _ _ _ _ _ _ _ _ _ (by omega)
        · exact drawsLB_of_none (drawPage_moveDown o _ _)
        · split_ifs with hd2
          · rw [if_pos hd2] at m3
            exact drawsLB_rect _ _ _ _ _ _ (by omega)
          · exact drawsLB_of_none (by intro e he; simp at he)
  | paragraph runs raw =>
      have m1 := page_le_checkPageBreak o 6000 s
      have m2 := page_le_checkPageBreak o (M raw (contentWidth o) 400 + 2000)
        (checkPageBreak o 6000 s).1
      simp only [renderToken]
      refine drawsLB_append (drawsLB_append (drawsLB_append ?_ ?_) ?_) ?_
      · exact drawsLB_of_none (drawPage_checkPageBreak o 6000 s)
      · exact drawsLB_measure _ _
      · exact drawsLB_of_none (drawPage_checkPageBreak o _ _)
      · exact drawsLB_text _ _ _ _ _ _ _ _ _ (by omega)
  | list items =>
      have m1 := page_le_checkPageBreak o 10000 s
      have m2 := page_le_moveDown o 2000 (checkPageBreak o 10000 s).1
      simp only [renderToken]
      refine drawsLB_append (drawsLB_append (drawsLB_append ?_ ?_) ?_) ?_
      · exact drawsLB_of_none (drawPage_checkPageBreak o 10000 s)
      · exact drawsLB_of_none (drawPage_moveDown o 2000 _)
      · intro e he p hp
        have := drawsLB_stepFold (renderListItem M t o) (drawsLB_renderListItem M t o)
          (page_le_renderListItem M t o) items
          (moveDown o 2000 (checkPageBreak o 10000 s).1).1 e he p hp
        omega
      · exact drawsLB_of_none (drawPage_moveDown o 1500 _)
  | blockquote txt =>
      have m1 := page_le_checkPageBreak o 8000 s
      have m2 := page_le_moveDown o 2000 (checkPageBreak o 8000 s).1
      simp only [renderToken]
      refine drawsLB_append (drawsLB_append (drawsLB_append (drawsLB_append
        (drawsLB_append ?_ ?_) ?_) ?_) ?_) ?_
      · exact drawsLB_of_none (drawPage_checkPageBreak o 8000 s)
      · exact drawsLB_of_none (drawPage_moveDown o 2000 _)
      · exact drawsLB_measure _ _
      · exact drawsLB_rect _ _ _ _ _ _ (by omega)
      · exact drawsLB_rect _ _ _ _ _ _ (by omega)
      · exact drawsLB_text _ _ _ _ _ _ _ _ _ (by omega)
  | code txt =>
      have m1 := page_le_checkPageBreak o 6000 s
      have m2 := page_le_moveDown o 2000 (checkPageBreak o 6000 s).1
      simp only [renderToken]
      refine drawsLB_append (drawsLB_append (drawsLB_append (drawsLB_append ?_ ?_)
        ?_) ?_) ?_
      · exact drawsLB_of_none (drawPage_checkPageBreak o 6000 s)
      · exact drawsLB_of_none (drawPage_moveDown o 2000 _)
      · exact drawsLB_measure _ _
      · exact drawsLB_rect _ _ _ _ _ _ (by omega)
      · exact drawsLB_text _ _ _ _ _ _ _ _ _ (by omega)
  | hr =>
      have m1 := page_le_checkPageBreak o 4000 s
      have m2 := page_le_moveDown o 2500 (checkPageBreak o 4000 s).1
      simp only [renderToken]
      refine drawsLB_append (drawsLB_append (drawsLB_append (drawsLB_append
        (drawsLB_append ?_ ?_) ?_) ?_) ?_) ?_
      · exact drawsLB_of_none (drawPage_checkPageBreak o 4000 s)
      · exact drawsLB_of_none (drawPage_moveDown o 2500 _)
      · exact drawsLB_rect _ _ _ _ _ _ (by omega)
      · exact drawsLB_circle _ _ _ _ _ (by omega)
      · exact drawsLB_circle _ _ _ _ _ (by omega)
      · exact drawsLB_of_none (drawPage_moveDown o 3000 _)
  | space =>
      simp only [renderToken]
      exact drawsLB_of_none (drawPage_moveDown o 1200 s)
  | other txt raw =>
      by_cases hp2 : (txt.isSome || raw.isSome : Bool)
      · have m1 := page_le_checkPageBreak o 4000 s
        simp only [renderToken, hp2, if_true]
        refine drawsLB_append (drawsLB_append ?_ ?_) ?_
        · exact drawsLB_of_none (drawPage_checkPageBreak o 4000 s)
        · exact drawsLB_measure _ _
        · exact drawsLB_text _ _ _ _ _ _ _ _ _ (by omega)
      · simp only [renderToken, hp2, if_false]
        exact drawsLB_of_none (by intro e he; simp at he)

theorem drawsUB_tocEntryStep (t : PDFTheme) (o : Opts) (item : TocEntry) (s : St) :
    DrawsUB (tocEntryStep t o item s).1.page (tocEntryStep t o item s).2 := by
  have m1 := page_le_moveDown o 1800 (checkPageBreak o 2500 s).1
  simp only [tocEntryStep]
  refine drawsUB_append (drawsUB_append ?_ ?_) ?_
  · exact drawsUB_of_none (drawPage_checkPageBreak o 2500 s)
  · exact drawsUB_text _ _ _ _ _ _ _ _ _ (by omega)
  · exact drawsUB_of_none (drawPage_moveDown o 1800 _)

/-- Every body-content drawing call of the TOC phase happens on a page
strictly below the page the phase ends on (the forced post-TOC page). -/
theorem tocPhase_draws_lt (t : PDFTheme) (o : Opts) (tokens : List Token) (s : St) :
    ∀ e ∈ (tocPhase t o tokens s).2, ∀ p, e.drawPage = some p →
      p < (tocPhase t o tokens s).1.page := by
  unfold tocPhase
  by_cases hT : o.includeTableOfContents = true
  · rw [if_pos hT]
    by_cases hE : collectTOC tokens s.page = []
    · rw [if_pos hE]
      intro e he
      simp at he
    · rw [if_neg hE]
      have m1 := page_le_checkPageBreak o 10000 s
      have m2 := page_le_moveDown o 4000 (checkPageBreak o 10000 s).1
      have m3 := page_le_stepFold (tocEntryStep t o) (page_tocEntryStep t o)
        (collectTOC tokens s.page) (moveDown o 4000 (checkPageBreak o 10000 s).1).1
      intro e he p hp
      have hub : DrawsUB (stepFold (tocEntryStep t o)
          (moveDown o 4000 (checkPageBreak o 10000 s).1).1 (collectTOC tokens s.page)).1.page
          ((checkPageBreak o 10000 s).2
            ++ [Ev.text "Table of Contents" t.headerFont 2000 t.primaryColor
                  o.margins.left (checkPageBreak o 10000 s).1.y none false
                  (checkPageBreak o 10000 s).1.page]
            ++ (moveDown o 4000 (checkPageBreak o 10000 s).1).2
            ++ (stepFold (tocEntryStep t o)
                  (moveDown o 4000 (checkPageBreak o 10000 s).1).1
                  (collectTOC tokens s.page)).2
            ++ [Ev.newPage]
            ++ addHeader o
                { page := (stepFold (tocEntryStep t o)
                    (moveDown o 4000 (checkPageBreak o 10000 s).1).1
                    (collectTOC tokens s.page)).1.page + 1,
                  y := o.margins.top + (if o.includeHeader then 9000 else 3000) }) := by
        refine drawsUB_append (drawsUB_append (drawsUB_append (drawsUB_append
          (drawsUB_append ?_ ?_) ?_) ?_) ?_) ?_
        · exact drawsUB_of_none (drawPage_checkPageBreak o 10000 s)
        · exact drawsUB_text _ _ _ _ _ _ _ _ _ (by omega)
        · exact drawsUB_of_none (drawPage_moveDown o 4000 _)
        · exact drawsUB_stepFold (tocEntryStep t o) (drawsUB_tocEntryStep t o)
            (page_le_stepFold (tocEntryStep t o) (page_tocEntryStep t o)) _ _
        · exact drawsUB_of_none (by intro e2 he2; simp at he2; subst he2; rfl)
        · exact drawsUB_of_none (drawPage_addHeader o _)
      have hle := hub e he p hp
      have hlt : p < (stepFold (tocEntryStep t o)
          (moveDown o 4000 (checkPageBreak o 10000 s).1).1
          (collectTOC tokens s.page)).1.page + 1 := by omega
      exact hlt
  · rw [if_neg hT]
    intro e he
    simp at he

/-! Section: Claim C7: body starts strictly after the TOC pages -/

/-- Claim C7: with the table-of-contents option enabled, every
body-content drawing call of the body iteration happens on a page strictly
after every page carrying a drawing call of the TOC listing, regardless of
how much vertical space the TOC consumed — the forced post-TOC page break
(`doc.addPage`) separates them.  (When the TOC collects no entries the
phase emits no drawing calls and the statement is vacuous.) -/
theorem C7_toc_body_pages (M : String → Int → Int → Int) (t : PDFTheme) (o : Opts)
    (tokens : List Token) (hT : o.includeTableOfContents = true) :
    ∀ e ∈ (tocPhase t o tokens { page := 1, y := initY o }).2,
    ∀ p, e.drawPage = some p →
    ∀ e2 ∈ (stepFold (renderToken M t o)
        (tocPhase t o tokens { page := 1, y := initY o }).1 tokens).2,
    ∀ q, e2.drawPage = some q → p < q := by
  intro e he p hp e2 he2 q hq
  have h1 := tocPhase_draws_lt t o tokens { page := 1, y := initY o } e he p hp
  have h2 := drawsLB_stepFold (renderToken M t o) (drawsLB_renderToken M t o)
    (page_le_renderToken M t o) tokens
    (tocPhase t o tokens { page := 1, y := initY o }).1 e2 he2 q hq
  omega

/-- Witness for C7: a TOC title drawn on page 1 precedes a body paragraph
drawn on page 2. -/
theorem C7_witness : optsTOC.includeTableOfContents = true ∧ (1 : Nat) < 2 :=
  ⟨rfl, C7_toc_body_pages (constM 1700) professionalTheme optsTOC
    [Token.heading 1 "A", Token.paragraph none "p"] rfl
    (Ev.text "Table of Contents" "Helvetica-Bold" 2000 "#2563eb" 7200 15200 none false 1)
    (by decide) 1 rfl
    (Ev.text "p" "Helvetica" 1200 "#1e293b" 7200 25200 (some 45128) true 2)
    (by decide) 2 rfl⟩

/-! Section: Claim C1 (amended): measured heights drive the variable-height branches -/

/-- Claim C1 (amended): for paragraph, list item and blockquote the
renderer measures the text (a `measure` event strictly before the `text`
drawing call) at exactly the wrap width it then draws with, and advances
the cursor from the draw position by the measured height plus a constant
trailing spacing (2500, 1500, measured+2000 box plus 1000).  For the code
branch the height is also measured before drawing, but at width
`contentWidth − 2000` while the text is drawn with wrap width
`contentWidth − 3000`, and the advance is `max 4000 (measured + 2000) +
2000`: a measured-height box with a 4000 floor rather than the raw
measured height. -/
theorem C1_amended (M : String → Int → Int → Int) (t : PDFTheme) (o : Opts) :
    (∀ (s : St) (runs : Option (List Inline)) (raw : String), ∃ (pre mid : List Ev) (s2 : St),
        renderToken M t o (Token.paragraph runs raw) s =
          ({ s2 with y := s2.y + M raw (contentWidth o) 400 + 2500 },
           pre ++ [Ev.measure raw (contentWidth o)] ++ mid
               ++ [Ev.text raw t.bodyFont o.fontSize t.textColor o.margins.left s2.y
                     (some (contentWidth o)) true s2.page])) ∧
    (∀ (it : ListItem) (s : St), ∃ (pre : List Ev) (s1 : St),
        renderListItem M t o it s =
          ({ s1 with y := s1.y + M (listItemText it) (contentWidth o - 3500) 200 + 1500 },
           pre ++ [Ev.circle (o.margins.left + 800) (s1.y + 800) 250 t.accentColor s1.page]
               ++ [Ev.measure (listItemText it) (contentWidth o - 3500)]
               ++ [Ev.text (listItemText it) t.bodyFont o.fontSize t.textColor
                     (o.margins.left + 2500) s1.y (some (contentWidth o - 3500)) false
                     s1.page])) ∧
    (∀ (txt : String) (s : St), ∃ (pre : List Ev) (s2 : St),
        renderToken M t o (Token.blockquote txt) s =
          ({ s2 with y := s2.y + (M txt (contentWidth o - 4000) 400 + 2000) + 1000 },
           pre ++ [Ev.measure txt (contentWidth o - 4000)]
               ++ [Ev.rect o.margins.left (s2.y - 1000) (contentWidth o)
                     (M txt (contentWidth o - 4000) 400 + 2000) t.primaryColor s2.page]
               ++ [Ev.rect o.margins.left (s2.y - 1000) 400
                     (M txt (contentWidth o - 4000) 400 + 2000) t.accentColor s2.page]
               ++ [Ev.text txt t.bodyFont (o.fontSize - 100) t.secondaryColor
                     (o.margins.left + 2500) s2.y (some (contentWidth o - 4000)) false
                     s2.page])) ∧
    (∀ (txt : String) (s : St), ∃ (pre : List Ev) (s2 : St),
        renderToken M t o (Token.code txt) s =
          ({ s2 with y := s2.y + max 4000 (M txt (contentWidth o - 2000) 200 + 2000) + 2000 },
           pre ++ [Ev.measure txt (contentWidth o - 2000)]
               ++ [Ev.rect o.margins.left s2.y (contentWidth o)
                     (max 4000 (M txt (contentWidth o - 2000) 200 + 2000)) "#f8fafc" s2.page]
               ++ [Ev.text txt t.codeFont (o.fontSize - 100) "#1e293b"
                     (o.margins.left + 1500) (s2.y + 1000) (some (contentWidth o - 3000))
                     false s2.page])) := by
  refine ⟨?_, ?_, ?_, ?_⟩
  · intro s runs raw
    exact ⟨(checkPageBreak o 6000 s).2,
      (checkPageBreak o (M raw (contentWidth o) 400 + 2000) (checkPageBreak o 6000 s).1).2,
      (checkPageBreak o (M raw (contentWidth o) 400 + 2000) (checkPageBreak o 6000 s).1).1,
      rfl⟩
  · intro it s
    exact ⟨(checkPageBreak o 3500 s).2, (checkPageBreak o 3500 s).1, rfl⟩
  · intro txt s
    exact ⟨(checkPageBreak o 8000 s).2 ++ (moveDown o 2000 (checkPageBreak o 8000 s).1).2,
      (moveDown o 2000 (checkPageBreak o 8000 s).1).1, rfl⟩
  · intro txt s
    exact ⟨(checkPageBreak o 6000 s).2 ++ (moveDown o 2000 (checkPageBreak o 6000 s).1).2,
      (moveDown o 2000 (checkPageBreak o 6000 s).1).1, rfl⟩

/-- Counterexample for C1 as stated: in the code branch the measure event
uses width `contentWidth − 2000` while the draw wraps at `contentWidth −
3000`, and two different measured heights (500 and 1500) produce the very
same cursor advance (the 4000-centipoint floor), so the code branch
neither measures at the effective wrap width nor always advances by the
measured height. -/
theorem C1_counterexample :
    renderToken (constM 500) professionalTheme defaultOpts (Token.code "x") ⟨1, 20000⟩ =
      renderToken (constM 1500) professionalTheme defaultOpts (Token.code "x") ⟨1, 20000⟩ ∧
    (renderToken (constM 500) professionalTheme defaultOpts (Token.code "x") ⟨1, 20000⟩).2 =
      [Ev.measure "x" 43128,
       Ev.rect 7200 22000 45128 4000 "#f8fafc" 1,
       Ev.text "x" "Courier" 1100 "#1e293b" 8700 23000 (some 42128) false 1] ∧
    contentWidth defaultOpts - 2000 ≠ contentWidth defaultOpts - 3000 := by
  decide

/-! Section: Claim C2: unknown theme name -/

theorem useq_none {a : List Ev × Option St} {f : St → List Ev × Option St}
    (h : a.2 = none) : useq a f = (a.1, none) := by
  unfold useq
  rw [h]

theorem useq_some {a : List Ev × Option St} {f : St → List Ev × Option St}
    {s : St} (h : a.2 = some s) : useq a f = (a.1 ++ (f s).1, (f s).2) := by
  unfold useq
  rw [h]

theorem noDraw_addHeaderU (o : Opts) (s : St) :
    ∀ e ∈ (addHeaderU o s).1, e.drawPage = none := by
  unfold addHeaderU
  split_ifs <;> intro e he <;> simp at he

theorem noDraw_addFooterU (o : Opts) (s : St) :
    ∀ e ∈ (addFooterU o s).1, e.drawPage = none := by
  unfold addFooterU
  split_ifs <;> intro e he <;> simp at he

theorem noDraw_useq {a : List Ev × Option St} {f : St → List Ev × Option St}
    (ha : ∀ e ∈ a.1, e.drawPage = none)
    (hf : ∀ s : St, ∀ e ∈ (f s).1, e.drawPage = none) :
    ∀ e ∈ (useq a f).1, e.drawPage = none := by
  intro e he
  rcases h2 : a.2 with _ | s
  · rw [useq_none h2] at he
    exact ha e he
  · rw [useq_some h2] at he
    rcases List.mem_append.mp he with hm | hm
    · exact ha e hm
    · exact hf s e hm

theorem noDraw_checkPageBreakU (o : Opts) (r : Int) (s : St) :
    ∀ e ∈ (checkPageBreakU o r s).1, e.drawPage = none := by
  unfold checkPageBreakU
  by_cases hb : pageHeight - footerSpace o - s.y < r
  · rw [if_pos hb]
    refine noDraw_useq (noDraw_addFooterU o s) ?_
    intro s1
    refine noDraw_useq ?_ (noDraw_addHeaderU o)
    intro e he
    simp at he
    subst he
    rfl
  · rw [if_neg hb]
    intro e he
    simp at he

theorem noDraw_moveDownU (o : Opts) (sp : Int) (s : St) :
    ∀ e ∈ (moveDownU o sp s).1, e.drawPage = none := by
  unfold moveDownU
  exact noDraw_checkPageBreakU o 5000 _

theorem noDraw_preEvents (title : String) :
    ∀ e ∈ preEvents title, e.drawPage = none := by
  intro e he
  simp [preEvents] at he
  rcases he with he | he | he <;> subst he <;> rfl

theorem ocr_of_none {evs : List Ev} (h : ∀ e ∈ evs, e.drawPage = none) :
    OnlyCodeRects evs := by
  intro e he p hp
  rw [h e he] at hp
  cases hp

theorem ocr_append {a b : List Ev} (ha : OnlyCodeRects a) (hb : OnlyCodeRects b) :
    OnlyCodeRects (a ++ b) := by
  intro e he p hp
  rcases List.mem_append.mp he with hm | hm
  · exact ha e hm p hp
  · exact hb e hm p hp

theorem ocr_useq {a : List Ev × Option St} {f : St → List Ev × Option St}
    (ha : OnlyCodeRects a.1) (hf : ∀ s : St, OnlyCodeRects (f s).1) :
    OnlyCodeRects (useq a f).1 := by
  rcases h2 : a.2 with _ | s
  · rw [useq_none h2]
    exact ha
  · rw [useq_some h2]
    exact ocr_append ha (hf s)

theorem ocr_renderTokenU (M : String → Int → Int → Int) (o : Opts) :
    ∀ (tok : Token) (s : St), OnlyCodeRects (renderTokenU M o tok s).1 := by
  intro tok s
  cases tok with
  | heading depth txt =>
      simp only [renderTokenU]
      refine ocr_useq (ocr_of_none (noDraw_checkPageBreakU o _ s)) ?_
      intro s1
      refine ocr_useq (ocr_of_none (noDraw_moveDownU o _ s1)) ?_
      intro s2 e he
      simp at he
  | paragraph runs raw =>
      simp only [renderTokenU]
      refine ocr_useq (ocr_of_none (noDraw_checkPageBreakU o _ s)) ?_
      intro s1 e he
      simp at he
  | list items =>
      simp only [renderTokenU]
      refine ocr_useq (ocr_of_none (noDraw_checkPageBreakU o _ s)) ?_
      intro s1
      refine ocr_useq (ocr_of_none (noDraw_moveDownU o _ s1)) ?_
      intro s2
      cases items with
      | nil => exact ocr_of_none (noDraw_moveDownU o _ s2)
      | cons x xs =>
          refine ocr_useq (ocr_of_none (noDraw_checkPageBreakU o _ s2)) ?_
          intro s3 e he
          simp at he
  | blockquote txt =>
      simp only [renderTokenU]
      refine ocr_useq (ocr_of_none (noDraw_checkPageBreakU o _ s)) ?_
      intro s1
      refine ocr_useq (ocr_of_none (noDraw_moveDownU o _ s1)) ?_
      intro s2 e he p hp
      simp at he
      subst he
      simp [Ev.drawPage] at hp
  | code txt =>
      simp only [renderTokenU]
      refine ocr_useq (ocr_of_none (noDraw_checkPageBreakU o _ s)) ?_
      intro s1
      refine ocr_useq (ocr_of_none (noDraw_moveDownU o _ s1)) ?_
      intro s2 e he p hp
      simp at he
      rcases he with he | he <;> subst he
      · simp [Ev.drawPage] at hp
      · exact ⟨_, _, _, _, _, rfl⟩
  | hr =>
      simp only [renderTokenU]
      refine ocr_useq (ocr_of_none (noDraw_checkPageBreakU o _ s)) ?_
      intro s1
      refine ocr_useq (ocr_of_none (noDraw_moveDownU o _ s1)) ?_
      intro s2 e he
      simp at he
  | space =>
      simp only [renderTokenU]
      exact ocr_of_none (noDraw_moveDownU o _ s)
  | other txt raw =>
      by_cases hp2 : (txt.isSome || raw.isSome : Bool)
      · simp only [renderTokenU]
        rw [if_pos hp2]
        refine ocr_useq (ocr_of_none (noDraw_checkPageBreakU o _ s)) ?_
        intro s1 e he p hp
        simp at he
        subst he
        simp [Ev.drawPage] at hp
      · simp only [renderTokenU]
        rw [if_neg hp2]
        intro e he
        simp at he

theorem ocr_stepFoldU {α : Type} (f : α → St → List Ev × Option St)
    (hf : ∀ (x : α) (s : St), OnlyCodeRects (f x s).1) :
    ∀ (xs : List α) (s : St), OnlyCodeRects (stepFoldU f s xs).1 := by
  intro xs
  induction xs with
  | nil => intro s e he; simp [stepFoldU] at he
  | cons x xs ih =>
      intro s
      simp only [stepFoldU]
      exact ocr_useq (hf x s) (fun s1 => ih s1)

theorem ocr_tocPhaseU (o : Opts) (tokens : List Token) (s : St) :
    OnlyCodeRects (tocPhaseU o tokens s).1 := by
  unfold tocPhaseU
  split_ifs
  · intro e he
    simp at he
  · refine ocr_useq (ocr_of_none (noDraw_checkPageBreakU o _ s)) ?_
    intro s1 e he
    simp at he
  · intro e he
    simp at he

theorem ocr_renderDocU (M : String → Int → Int → Int) (o : Opts)
    (tokens : List Token) : OnlyCodeRects (renderDocU M o tokens).1 := by
  unfold renderDocU
  refine ocr_useq (ocr_of_none (noDraw_addHeaderU o _)) ?_
  intro s1
  refine ocr_useq (ocr_tocPhaseU o tokens s1) ?_
  intro s2
  refine ocr_useq (ocr_stepFoldU (renderTokenU M o) (ocr_renderTokenU M o) tokens s2) ?_
  intro s3
  refine ocr_useq (ocr_of_none (noDraw_addFooterU o _)) ?_
  intro s4
  split_ifs <;> intro e he <;> simp at he

theorem renderDocU_header (M : String → Int → Int → Int) (o : Opts)
    (tokens : List Token) (hH : o.includeHeader = true) :
    renderDocU M o tokens = ([], none) := by
  have ha : addHeaderU o { page := 1, y := initY o } = ([], none) := by
    unfold addHeaderU
    rw [if_pos hH]
  unfold renderDocU
  rw [useq_none (by rw [ha]), ha]

theorem checkPageBreakU_some (o : Opts) (r : Int) (s : St)
    (hH : o.includeHeader = false) (hF : o.includeFooter = false) :
    ∃ s2, (checkPageBreakU o r s).2 = some s2 := by
  unfold checkPageBreakU
  by_cases hb : pageHeight - footerSpace o - s.y < r
  · rw [if_pos hb]
    have hf2 : (addFooterU o s).2 = some s := by
      unfold addFooterU
      rw [hF]
      rfl
    rw [useq_some hf2]
    have hmid : (([Ev.newPage],
        some (⟨s.page + 1, o.margins.top +
          (if o.includeHeader then 9000 else 3000)⟩ : St)) :
        List Ev × Option St).2 =
        some (⟨s.page + 1, o.margins.top +
          (if o.includeHeader then 9000 else 3000)⟩ : St) := rfl
    rw [useq_some hmid]
    refine ⟨⟨s.page + 1, o.margins.top +
      (if o.includeHeader then 9000 else 3000)⟩, ?_⟩
    show (addHeaderU o ⟨s.page + 1, o.margins.top +
      (if o.includeHeader then 9000 else 3000)⟩).2 = some _
    unfold addHeaderU
    rw [hH]
    rfl
  · rw [if_neg hb]
    exact ⟨s, rfl⟩

theorem moveDownU_some (o : Opts) (sp : Int) (s : St)
    (hH : o.includeHeader = false) (hF : o.includeFooter = false) :
    ∃ s2, (moveDownU o sp s).2 = some s2 := by
  unfold moveDownU
  exact checkPageBreakU_some o 5000 _ hH hF

theorem stepFoldU_some {α : Type} (f : α → St → List Ev × Option St) :
    ∀ (xs : List α) (s : St),
      (∀ x ∈ xs, ∀ s2 : St, ∃ s3, (f x s2).2 = some s3) →
      ∃ s4, (stepFoldU f s xs).2 = some s4 := by
  intro xs
  induction xs with
  | nil => intro s _; exact ⟨s, rfl⟩
  | cons x xs ih =>
      intro s hall
      obtain ⟨s1, hs1⟩ := hall x (List.mem_cons_self x xs) s
      simp only [stepFoldU]
      rw [useq_some hs1]
      exact ih s1 (fun y hy s2 => hall y (List.mem_cons_of_mem x hy) s2)

theorem renderTokenU_bare_some (M : String → Int → Int → Int) (o : Opts)
    (hH : o.includeHeader = false) (hF : o.includeFooter = false) :
    ∀ tok, (tok = Token.space ∨ tok = Token.other none none) → ∀ s : St,
      ∃ s2, (renderTokenU M o tok s).2 = some s2 := by
  intro tok htok s
  rcases htok with rfl | rfl
  · simp only [renderTokenU]
    exact moveDownU_some o 1200 s hH hF
  · exact ⟨s, rfl⟩

theorem renderDocU_bare (M : String → Int → Int → Int) (o : Opts)
    (tokens : List Token)
    (hH : o.includeHeader = false) (hF : o.includeFooter = false)
    (hPN : o.includePageNumbers = false) (hTOC : o.includeTableOfContents = false)
    (hall : ∀ tok ∈ tokens, tok = Token.space ∨ tok = Token.other none none) :
    ∃ s2, (renderDocU M o tokens).2 = some s2 := by
  unfold renderDocU
  rw [useq_some (show (addHeaderU o { page := 1, y := initY o }).2 =
      some { page := 1, y := initY o } from by unfold addHeaderU; rw [hH]; rfl)]
  rw [useq_some (show (tocPhaseU o tokens { page := 1, y := initY o }).2 =
      some { page := 1, y := initY o } from by unfold tocPhaseU; rw [hTOC]; rfl)]
  obtain ⟨s3, hs3⟩ := stepFoldU_some (renderTokenU M o) tokens { page := 1, y := initY o }
    (fun x hx s2 => renderTokenU_bare_some M o hH hF x (hall x hx) s2)
  rw [useq_some hs3]
  rw [useq_some (show (addFooterU o s3).2 = some s3 from by
    unfold addFooterU; rw [hF]; rfl)]
  refine ⟨s3, ?_⟩
  show (if o.includePageNumbers then (([], none) : List Ev × Option St)
    else ([], some s3)).2 = some s3
  rw [hPN]
  rfl

/-- Claim C2 (amended): a render naming an unknown theme gets `undefined`
from the registry lookup and never falls back to the default theme; it
proceeds until the first theme property access and throws a runtime
`TypeError` there.  With headers enabled (the default) that happens at the
start of header rendering, right after the response headers are set and
the stream piped, before anything is drawn or measured.  With headers
disabled the render gets further: an unrecognized token, a blockquote or a
code block measures its text first (and the code branch even draws its
literal-colored box) before the throw, and the only body drawing calls any
unknown-theme render ever completes are those literal `#f8fafc` code boxes
— never a call with an undefined color.  When header, footer and page
numbers are all disabled and no token branch touches the theme (only
spacing or payload-free unrecognized tokens), the render completes with no
error at all. -/
theorem C2_amended (M : String → Int → Int → Int) (title : String)
    (tokens : List Token) (o : Opts) (h : themesLookup o.theme = none) :
    (∃ rest, (streamTextAsPDF M title tokens o).events = preEvents title ++ rest) ∧
    (o.includeHeader = true →
      (streamTextAsPDF M title tokens o).err = some JsError.typeError ∧
      (streamTextAsPDF M title tokens o).events = preEvents title ∧
      ∀ e ∈ (streamTextAsPDF M title tokens o).events, e.drawPage = none) ∧
    (∀ e ∈ (streamTextAsPDF M title tokens o).events, ∀ p, e.drawPage = some p →
      ∃ x y w h2 pg, e = Ev.rect x y w h2 "#f8fafc" pg) ∧
    (∀ (txt : String) (s : St), 4000 ≤ pageHeight - footerSpace o - s.y →
      renderTokenU M o (Token.other (some txt) none) s =
        ([Ev.measure txt (contentWidth o)], none)) ∧
    (o.includeHeader = false → o.includeFooter = false →
      o.includePageNumbers = false → o.includeTableOfContents = false →
      (∀ tok ∈ tokens, tok = Token.space ∨ tok = Token.other none none) →
      (streamTextAsPDF M title tokens o).err = none) := by
  refine ⟨?_, ?_, ?_, ?_, ?_⟩
  · unfold streamTextAsPDF
    rw [h]
    rcases hU : (renderDocU M o tokens).2 with _ | s2
    · exact ⟨(renderDocU M o tokens).1, rfl⟩
    · refine ⟨(renderDocU M o tokens).1 ++ [Ev.close], ?_⟩
      show preEvents title ++ (renderDocU M o tokens).1 ++ [Ev.close] =
        preEvents title ++ ((renderDocU M o tokens).1 ++ [Ev.close])
      exact List.append_assoc _ _ _
  · intro hH
    have hcrash := renderDocU_header M o tokens hH
    have herr : (streamTextAsPDF M title tokens o).err = some JsError.typeError := by
      unfold streamTextAsPDF
      rw [h, hcrash]
    have hev : (streamTextAsPDF M title tokens o).events = preEvents title := by
      unfold streamTextAsPDF
      rw [h, hcrash]
      simp
    refine ⟨herr, hev, ?_⟩
    intro e he
    rw [hev] at he
    exact noDraw_preEvents title e he
  · intro e he p hp
    have hU := ocr_renderDocU M o tokens
    unfold streamTextAsPDF at he
    rw [h] at he
    rcases h2 : (renderDocU M o tokens).2 with _ | s2
    · rw [h2] at he
      rcases List.mem_append.mp he with hm | hm
      · rw [noDraw_preEvents title e hm] at hp
        cases hp
      · exact hU e hm p hp
    · rw [h2] at he
      rcases List.mem_append.mp he with hm | hm
      · rcases List.mem_append.mp hm with hm2 | hm2
        · rw [noDraw_preEvents title e hm2] at hp
          cases hp
        · exact hU e hm2 p hp
      · simp at hm
        subst hm
        simp [Ev.drawPage] at hp
  · intro txt s4 h4
    have hnb : ¬(pageHeight - footerSpace o - s4.y < 4000) := not_lt.mpr h4
    show useq (checkPageBreakU o 4000 s4)
      (fun _ => ([Ev.measure txt (contentWidth o)], none)) =
      ([Ev.measure txt (contentWidth o)], none)
    rw [useq_some (show (checkPageBreakU o 4000 s4).2 = some s4 from by
      unfold checkPageBreakU; rw [if_neg hnb])]
    rw [show (checkPageBreakU o 4000 s4).1 = [] from by
      unfold checkPageBreakU; rw [if_neg hnb]]
    rfl
  · intro hH hF hPN hTOC hall
    obtain ⟨s2, hs2⟩ := renderDocU_bare M o tokens hH hF hPN hTOC hall
    unfold streamTextAsPDF
    rw [h, hs2]

/-- Witness for C2 (amended): with the default (headers-on) options the
unknown theme aborts with the TypeError right after the response setup,
while with header, footer and page numbers disabled a spacing-only
document completes with no error despite the unknown theme. -/
theorem C2_witness :
    themesLookup optsX.theme = none ∧
    optsX.includeHeader = true ∧
    (streamTextAsPDF (constM 1700) "T" [] optsX).err = some JsError.typeError ∧
    themesLookup optsXBare.theme = none ∧
    (streamTextAsPDF (constM 1700) "T" [Token.space] optsXBare).err = none := by
  have h1 := C2_amended (constM 1700) "T" [] optsX (by decide)
  have h2 := C2_amended (constM 1700) "T" [Token.space] optsXBare (by decide)
  exact ⟨by decide, rfl, (h1.2.1 rfl).1, by decide,
    h2.2.2.2.2 rfl rfl rfl rfl (by decide)⟩

/-- Counterexample for C2 as stated: with theme name "nonexistent-theme"
the registry lookup yields nothing, the run aborts with a `TypeError`
after the response headers and the pipe were already issued (so it is not
a fail-fast configuration error), and the outcome differs from the
default-theme render (so there is no fallback). -/
theorem C2_counterexample :
    themesLookup "nonexistent-theme" = none ∧
    (streamTextAsPDF (constM 1700) "T" [] optsX).err = some JsError.typeError ∧
    (streamTextAsPDF (constM 1700) "T" [] optsX).events =
      [Ev.respHeader "Content-Type" "application/pdf",
       Ev.respHeader "Content-Disposition" "attachment; filename=\"T.pdf\"",
       Ev.pipe] ∧
    (streamTextAsPDF (constM 1700) "T" [] optsX).events ≠ [] ∧
    streamTextAsPDF (constM 1700) "T" [] optsX ≠
      streamTextAsPDF (constM 1700) "T" [] defaultOpts := by
  decide

/-! Section: Claim C4: the vertical-position interval -/

/-- Claim C4 (amended): under the default geometry (A4, 72pt margins,
header and footer enabled) the vertical position lies in
`[top margin, pageHeight − bottom margin]` after any completed
`checkPageBreak` with at least the 12pt reservation every call site uses,
and after any completed `moveDown`; the block branches' own cursor
additions are not covered (see the counterexample). -/
theorem C4_amended (s : St) (r sp : Int) (hr : 1200 ≤ r) (hsp : 0 ≤ sp)
    (hs : defaultOpts.margins.top ≤ s.y) :
    (defaultOpts.margins.top ≤ (checkPageBreak defaultOpts r s).1.y ∧
     (checkPageBreak defaultOpts r s).1.y ≤ pageHeight - defaultOpts.margins.bottom) ∧
    (defaultOpts.margins.top ≤ (moveDown defaultOpts sp s).1.y ∧
     (moveDown defaultOpts sp s).1.y ≤ pageHeight - defaultOpts.margins.bottom) := by
  have key : ∀ (r2 : Int) (s2 : St), 1200 ≤ r2 → (7200 : Int) ≤ s2.y →
      (7200 : Int) ≤ (checkPageBreak defaultOpts r2 s2).1.y ∧
      (checkPageBreak defaultOpts r2 s2).1.y ≤ 84189 - 7200 := by
    intro r2 s2 hr2 hs2
    unfold checkPageBreak
    split_ifs with h hH
    · constructor
      · show (7200 : Int) ≤ 7200 + 9000
        decide
      · show (7200 : Int) + 9000 ≤ 84189 - 7200
        decide
    · exact absurd rfl hH
    · refine ⟨hs2, ?_⟩
      show s2.y ≤ 84189 - 7200
      have h2 : ¬(pageHeight - footerSpace defaultOpts - s2.y < r2) := h
      rw [show pageHeight = 84189 from rfl,
        show footerSpace defaultOpts = 6000 from rfl] at h2
      omega
  have hs7 : (7200 : Int) ≤ s.y := hs
  constructor
  · exact key r s hr hs7
  · unfold moveDown
    exact key 5000 _ (by decide) (by simp only [St.y]; omega)

/-- Witness for C4 (amended) at a concrete mid-page state. -/
theorem C4_witness :
    (1200 : Int) ≤ 5000 ∧ (0 : Int) ≤ 1000 ∧
    defaultOpts.margins.top ≤ ((⟨1, 20000⟩ : St)).y ∧
    ((defaultOpts.margins.top ≤ (checkPageBreak defaultOpts 5000 ⟨1, 20000⟩).1.y ∧
      (checkPageBreak defaultOpts 5000 ⟨1, 20000⟩).1.y ≤
        pageHeight - defaultOpts.margins.bottom) ∧
     (defaultOpts.margins.top ≤ (moveDown defaultOpts 1000 ⟨1, 20000⟩).1.y ∧
      (moveDown defaultOpts 1000 ⟨1, 20000⟩).1.y ≤
        pageHeight - defaultOpts.margins.bottom)) :=
  ⟨by decide, by decide, by decide,
   C4_amended ⟨1, 20000⟩ 5000 1000 (by decide) (by decide) (by decide)⟩

/-- Counterexample for C4 as stated: a paragraph whose measured height is
650pt (65000 centipoints) triggers a pre-draw break to a fresh page at
y = 16200, is drawn there, and the paragraph branch then advances the
cursor to 83700 — beyond `pageHeight − bottom margin = 76989` — so the
position is outside the claimed interval right after the branch's cursor
update completes (here at the very end of the render). -/
theorem C4_counterexample :
    (renderDoc (constM 65000) professionalTheme defaultOpts
        [Token.paragraph none "lorem"]).1.y = 83700 ∧
    pageHeight - defaultOpts.margins.bottom < 83700 := by
  decide

/-! Section: Claim C6: TOC collection and its provisional page numbers -/

/-- Claim C6 (amended): the pre-pass collects exactly one entry per
heading token, in original order, recording the heading's depth and text;
every collected page number equals the collection-time page.  Each
rendered entry line is indented by `(level − 1) · 20` points.  The TOC
listing itself begins on the collection-time page only when the space
check before the title does not break (as under the default geometry);
with extreme margins that check can break first, and the listing then
starts on a later page than all the collected numbers. -/
theorem C6_amended (t : PDFTheme) (o : Opts) (tokens : List Token) (s : St)
    (hT : o.includeTableOfContents = true)
    (hspace : 10000 ≤ pageHeight - footerSpace o - s.y) :
    ((collectTOC tokens s.page).map (fun e => (e.level, e.text)) =
      tokens.filterMap (fun tok => match tok with
        | Token.heading d txt => some (d, txt)
        | _ => none)) ∧
    (∀ e ∈ collectTOC tokens s.page, e.page = s.page) ∧
    (∀ (item : TocEntry) (s2 : St), ∃ (pre post : List Ev) (sMid : St),
        (tocEntryStep t o item s2).2 =
          pre ++ [Ev.text (item.text ++ " " ++ tocDots item.text.length ++ " " ++
              toString item.page) t.bodyFont 1100 t.textColor
              (o.margins.left + ((item.level - 1 : Nat) : Int) * 2000) sMid.y
              none false sMid.page] ++ post) ∧
    (collectTOC tokens s.page ≠ [] →
      ∃ post, (tocPhase t o tokens s).2 =
        Ev.text "Table of Contents" t.headerFont 2000 t.primaryColor
          o.margins.left s.y none false s.page :: post) := by
  refine ⟨?_, ?_, ?_, ?_⟩
  · induction tokens with
    | nil => rfl
    | cons x xs ih =>
        cases x <;> simp [collectTOC, List.filterMap_cons] at ih ⊢ <;> exact ih
  · intro e he
    unfold collectTOC at he
    rw [List.mem_filterMap] at he
    obtain ⟨tok, _, htok⟩ := he
    cases tok <;> simp at htok
    subst htok
    rfl
  · intro item s2
    exact ⟨(checkPageBreak o 2500 s2).2,
      (moveDown o 1800 (checkPageBreak o 2500 s2).1).2,
      (checkPageBreak o 2500 s2).1, rfl⟩
  · intro hne
    have hnb : ¬(pageHeight - footerSpace o - s.y < 10000) := by omega
    unfold tocPhase checkPageBreak
    rw [if_pos hT, if_neg hne, if_neg hnb]
    exact ⟨_, rfl⟩

/-- Witness for C6 (amended): one heading under the default geometry with
the TOC enabled. -/
theorem C6_witness :
    optsTOC.includeTableOfContents = true ∧
    (10000 : Int) ≤ pageHeight - footerSpace optsTOC - ((⟨1, 15200⟩ : St)).y ∧
    (∀ e ∈ collectTOC [Token.heading 1 "A"] ((⟨1, 15200⟩ : St)).page, e.page = 1) ∧
    (collectTOC [Token.heading 1 "A"] 1 ≠ [] →
      ∃ post, (tocPhase professionalTheme optsTOC [Token.heading 1 "A"] ⟨1, 15200⟩).2 =
        Ev.text "Table of Contents" professionalTheme.headerFont 2000
          professionalTheme.primaryColor optsTOC.margins.left 15200 none false 1 :: post) := by
  have h := C6_amended professionalTheme optsTOC [Token.heading 1 "A"] ⟨1, 15200⟩
    rfl (by decide)
  exact ⟨rfl, by decide, h.2.1, h.2.2.2⟩

/-- Counterexample for C6 as stated: with a 700pt top margin the pre-title
space check breaks first, so the TOC is rendered on page 2 (and its entry
on a later page) while every collected page number is 1 — the collected
numbers do not equal the page the TOC is rendered on. -/
theorem C6_counterexample :
    collectTOC [Token.heading 1 "A"] 1 = [{ level := 1, text := "A", page := 1 }] ∧
    (Ev.text "Table of Contents" "Helvetica-Bold" 2000 "#2563eb" 7200 79000
        none false 2)
      ∈ (tocPhase professionalTheme opts700 [Token.heading 1 "A"] ⟨1, initY opts700⟩).2 ∧
    (∀ e ∈ (tocPhase professionalTheme opts700 [Token.heading 1 "A"]
        ⟨1, initY opts700⟩).2, ∀ p, e.drawPage = some p → p ≠ 1) := by
  decide

/-! Section: Claim C8: unrecognized token kinds degrade gracefully -/

/-- Claim C8: a token sequence containing unrecognized tokens never makes
the render throw — with a resolvable theme the run always completes with
no error and closes the document (`close` is the last event) — and the
default branch renders a text or raw payload as plain body text at the
configured size (body font, text color, content width), advancing by the
measured height plus spacing, while a payload-free unrecognized token is
skipped entirely (no events, state unchanged). -/
theorem C8_unrecognized (M : String → Int → Int → Int) (t : PDFTheme)
    (o : Opts) (title : String) (tokens : List Token) (s : St)
    (txt raw : Option String)
    (hth : themesLookup o.theme = some t)
    (hpay : (txt.isSome || raw.isSome) = true) :
    ((streamTextAsPDF M title tokens o).err = none ∧
     ∃ l, (streamTextAsPDF M title tokens o).events = l ++ [Ev.close]) ∧
    (∃ (pre : List Ev) (s1 : St),
        renderToken M t o (Token.other txt raw) s =
          ({ s1 with y := s1.y + M (txt.getD (raw.getD "")) (contentWidth o) 300 + 2000 },
           pre ++ [Ev.measure (txt.getD (raw.getD "")) (contentWidth o)]
               ++ [Ev.text (txt.getD (raw.getD "")) t.bodyFont o.fontSize t.textColor
                     o.margins.left s1.y (some (contentWidth o)) false s1.page])) ∧
    renderToken M t o (Token.other none none) s = (s, []) := by
  refine ⟨?_, ?_, rfl⟩
  · unfold streamTextAsPDF
    rw [hth]
    exact ⟨rfl, _, rfl⟩
  · simp only [renderToken]
    rw [if_pos hpay]
    exact ⟨(checkPageBreak o 4000 s).2, (checkPageBreak o 4000 s).1, rfl⟩

/-- Witness for C8 at a concrete unrecognized token carrying a text
payload. -/
theorem C8_witness :
    themesLookup defaultOpts.theme = some professionalTheme ∧
    ((some "x" : Option String).isSome || (none : Option String).isSome) = true ∧
    (streamTextAsPDF (constM 1700) "T" [Token.other (some "x") none] defaultOpts).err =
      none ∧
    renderToken (constM 1700) professionalTheme defaultOpts
      (Token.other none none) ⟨1, 15200⟩ = (⟨1, 15200⟩, []) := by
  have h := C8_unrecognized (constM 1700) professionalTheme defaultOpts "T"
    [Token.other (some "x") none] ⟨1, 15200⟩ (some "x") none (by decide) (by decide)
  exact ⟨by decide, by decide, h.1.1, h.2.2⟩

/-! Section: Claim C9: paragraph inline runs -/

/-- Claim C9 (amended): in the ENHANCED renderer (part_000) a paragraph
with inline runs renders each run in sequence, preserving left-to-right
order and skipping text-less parts, with styling switched per run kind
(strong: heading font and primary color; em: secondary color; plain: body
font and text color), and a paragraph without runs is drawn as one
justified word-wrapped block of its raw text; the FIXED renderer
(part_003) ignores inline runs entirely and renders every paragraph as the
raw-text block. -/
theorem C9_paragraph_runs (t : PDFTheme) (o : Opts) :
    (∀ (s : St) (parts : List Inline),
        inlineRunEvents t o s parts = parts.filterMap (runEventOf t o s)) ∧
    (∀ (M : String → Int → Int → Int) (s : St) (runs : Option (List Inline))
        (raw : String),
        renderToken M t o (Token.paragraph runs raw) s =
          renderToken M t o (Token.paragraph none raw) s) ∧
    (∀ (s : St) (parts : List Inline) (raw : String),
        renderParagraphV0 t o (some parts) raw s =
          ((moveDownV0 o 2500 (checkPageBreakV0 o 5000 s).1).1,
           (checkPageBreakV0 o 5000 s).2
             ++ inlineRunEvents t o (checkPageBreakV0 o 5000 s).1 parts
             ++ (moveDownV0 o 2500 (checkPageBreakV0 o 5000 s).1).2)) ∧
    (∀ (s : St) (raw : String),
        renderParagraphV0 t o none raw s =
          ((moveDownV0 o 2500 (checkPageBreakV0 o 5000 s).1).1,
           (checkPageBreakV0 o 5000 s).2
             ++ [Ev.text raw t.bodyFont o.fontSize t.textColor o.margins.left
                   (checkPageBreakV0 o 5000 s).1.y
                   (some (pageWidth - o.margins.left - o.margins.right)) true
                   (checkPageBreakV0 o 5000 s).1.page]
             ++ (moveDownV0 o 2500 (checkPageBreakV0 o 5000 s).1).2)) := by
  refine ⟨?_, fun M s runs raw => rfl, fun s parts raw => rfl, fun s raw => rfl⟩
  intro s parts
  have aux : ∀ (ps : List Inline) (acc : List Ev),
      ps.foldl (fun acc part => acc ++ (runEventOf t o s part).toList) acc =
        acc ++ ps.filterMap (runEventOf t o s) := by
    intro ps
    induction ps with
    | nil => intro acc; simp
    | cons q qs ih =>
        intro acc
        simp only [List.foldl_cons, List.filterMap_cons]
        rw [ih]
        cases hgq : runEventOf t o s q <;> simp [hgq]
  simpa [inlineRunEvents] using aux parts []

/-- Counterexample for C9 as stated: the fixed renderer draws a paragraph
carrying a strong run exactly as it draws the same paragraph without runs
— one justified raw-text block — and no event of that render draws the
run's text in the heading font and primary color. -/
theorem C9_counterexample :
    renderToken (constM 1700) professionalTheme defaultOpts
        (Token.paragraph (some [Inline.strong "X"]) "**X**") ⟨1, 15200⟩ =
      renderToken (constM 1700) professionalTheme defaultOpts
        (Token.paragraph none "**X**") ⟨1, 15200⟩ ∧
    (renderToken (constM 1700) professionalTheme defaultOpts
        (Token.paragraph (some [Inline.strong "X"]) "**X**") ⟨1, 15200⟩).2 =
      [Ev.measure "**X**" 45128,
       Ev.text "**X**" "Helvetica" 1200 "#1e293b" 7200 15200 (some 45128) true 1] ∧
    (∀ e ∈ (renderToken (constM 1700) professionalTheme defaultOpts
        (Token.paragraph (some [Inline.strong "X"]) "**X**") ⟨1, 15200⟩).2,
      e ≠ Ev.text "X" "Helvetica-Bold" 1200 "#2563eb" 7200 15200 none false 1) := by
  decide

/-! Section: Claim C10: empty sanitized filename falls back to document.pdf -/

/-- Claim C10: when sanitization of the title yields the empty string —
for instance when the title consists only of the path separators that
sanitization deletes — the Content-Disposition filename is exactly
`document.pdf`. -/
theorem C10_filename_fallback (title : String) :
    (sanitizeFilename title = "" →
      contentDispositionFilename title = "document.pdf" ∧
      contentDispositionHeader title = "attachment; filename=\"document.pdf\"") ∧
    ((∀ c ∈ title.toList, c = '/' ∨ c = '\\') → sanitizeFilename title = "") := by
  constructor
  · intro h
    constructor
    · unfold contentDispositionFilename
      rw [h]
      rfl
    · unfold contentDispositionHeader contentDispositionFilename
      rw [h]
      rfl
  · intro hall
    unfold sanitizeFilename
    have hfil : title.toList.filter (fun c => !(c == '/' || c == '\\')) = [] := by
      rw [List.filter_eq_nil_iff]
      intro c hc
      rcases hall c hc with rfl | rfl <;> simp
    rw [hfil]
    rfl

/-- Witness for C10 at a title of path separators only. -/
theorem C10_witness :
    sanitizeFilename "///" = "" ∧
    contentDispositionFilename "///" = "document.pdf" ∧
    contentDispositionHeader "///" = "attachment; filename=\"document.pdf\"" := by
  have h := C10_filename_fallback "///"
  have he : sanitizeFilename "///" = "" := h.2 (by decide)
  exact ⟨he, (h.1 he).1, (h.1 he).2⟩

end Pdf
